import Mathlib

/-!
Verification of the LookFor customer-support agent system: a shallow
embedding of the workflow decision engine, the policy-override store, the
tool-execution client, the escalation agent and the orchestrator pipeline,
with theorems settling the specification claims.

Python scalars (None, bool, int, str, list) are embedded as `PyVal`;
contexts and dict-shaped records as association lists; datetimes as
proleptic-Gregorian ordinals (`Nat`, matching Python `date.toordinal`),
since the code only ever uses the date part and the weekday.  Code that
can raise is embedded in `Except`/`Option`.
-/

namespace LookFor

/-- Python-style scalar or list value, as found in workflow JSON documents
and in the evaluation context built by the workflow engine. -/
inductive PyVal where
  | none
  | bool (b : Bool)
  | int (n : Int)
  | str (s : String)
  | list (xs : List PyVal)
deriving Repr

/-- Python truthiness: `None`, `False`, `0`, `""` and `[]` are falsy. -/
def PyVal.truthy : PyVal → Bool
  | .none => false
  | .bool b => b
  | .int n => n != 0
  | .str s => s != ""
  | .list xs => !xs.isEmpty

/-- Numeric view used by Python `==`: `bool` is an `int` subtype, so
`True == 1` holds. -/
def PyVal.asInt : PyVal → Option Int
  | .bool b => some (if b then 1 else 0)
  | .int n => some n
  | _ => Option.none

mutual

/-- Python `==` on embedded values. -/
def pyEq : PyVal → PyVal → Bool
  | .none, .none => true
  | .bool a, .bool b => a == b
  | .bool a, .int n => (if a then (1 : Int) else 0) == n
  | .int n, .bool a => n == (if a then (1 : Int) else 0)
  | .int m, .int n => m == n
  | .str s, .str t => s == t
  | .list xs, .list ys => pyEqList xs ys
  | _, _ => false

/-- Pointwise Python `==` on lists. -/
def pyEqList : List PyVal → List PyVal → Bool
  | [], [] => true
  | x :: xs, y :: ys => pyEq x y && pyEqList xs ys
  | _, _ => false

end

/-- Single-quote character, written via its code point so that the source
contains no bare apostheses in literals. -/
def sq : String := (Char.ofNat 39).toString

mutual

/-- Python `str()` of an embedded value. -/
def pyStr : PyVal → String
  | .none => "None"
  | .bool b => if b then "True" else "False"
  | .int n => toString n
  | .str s => s
  | .list xs => "[" ++ String.intercalate ", " (pyReprList xs) ++ "]"

/-- Python `repr()` of an embedded value (used for list elements). -/
def pyRepr : PyVal → String
  | .str s => sq ++ s ++ sq
  | .none => "None"
  | .bool b => if b then "True" else "False"
  | .int n => toString n
  | .list xs => "[" ++ String.intercalate ", " (pyReprList xs) ++ "]"

/-- Python `repr()` mapped over a list. -/
def pyReprList : List PyVal → List String
  | [] => []
  | x :: xs => pyRepr x :: pyReprList xs

end

/-- Boolean list-prefix test on characters. -/
def listPrefixB : List Char → List Char → Bool
  | [], _ => true
  | _ :: _, [] => false
  | a :: as, b :: bs => a == b && listPrefixB as bs

/-- Boolean contiguous-sublist test on characters. -/
def listSubB (needle : List Char) : List Char → Bool
  | [] => listPrefixB needle []
  | h :: t => listPrefixB needle (h :: t) || listSubB needle t

/-- Python substring containment `needle in hay`. -/
def strContains (hay needle : String) : Bool :=
  listSubB needle.toList hay.toList

/-- Evaluation context: a string-keyed map of Python values, embedding the
`context` dict built by `WorkflowEngine._build_context`. -/
def Ctx := List (String × PyVal)

/-- Python `context.get(field)`: `None` when the key is absent. -/
def ctxGet (ctx : Ctx) (k : String) : PyVal :=
  match ctx.find? (fun p => p.1 == k) with
  | some p => p.2
  | Option.none => .none

/-! ## Dates

`wismo_helpers.py` works with `datetime` values but only ever uses the
date part and the weekday, so dates are embedded as proleptic-Gregorian
ordinals exactly like Python `date.toordinal` (ordinal 1 = 0001-01-01,
a Monday). -/

/-- Gregorian leap-year test. -/
def isLeap (y : Nat) : Bool := (y % 4 == 0 && y % 100 != 0) || y % 400 == 0

/-- Length of month `m` (1-12) in year `y`. -/
def daysInMonth (y m : Nat) : Nat :=
  if m == 2 then (if isLeap y then 29 else 28)
  else if m == 4 || m == 6 || m == 9 || m == 11 then 30
  else 31

/-- Days in all years strictly before year `y`. -/
def daysBeforeYear (y : Nat) : Nat :=
  365 * (y - 1) + (y - 1) / 4 - (y - 1) / 100 + (y - 1) / 400

/-- Days in months `1 .. m-1` of year `y`. -/
def daysBeforeMonth (y m : Nat) : Nat :=
  (List.range (m - 1)).foldl (fun acc i => acc + daysInMonth y (i + 1)) 0

/-- Python `date(y, m, d).toordinal()`. -/
def toOrdinal (y m d : Nat) : Nat :=
  daysBeforeYear y + daysBeforeMonth y m + d

/-- Python `date.weekday()` from an ordinal: 0 = Monday. -/
def weekdayOf (ordinal : Nat) : Nat := (ordinal + 6) % 7

/-- Day-name table used by `wismo_helpers.get_contact_day` and by
`Orchestrator.process_message` (`strftime` with the `%a` format). -/
def dayName (w : Nat) : String :=
  match w with
  | 0 => "Mon" | 1 => "Tue" | 2 => "Wed" | 3 => "Thu"
  | 4 => "Fri" | 5 => "Sat" | _ => "Sun"

/-- Structural split of a character list at a separator, mirroring
Python `str.split` with a one-character separator. -/
def splitOnChar (sep : Char) : List Char → List (List Char)
  | [] => [[]]
  | x :: xs =>
    let rest := splitOnChar sep xs
    if x == sep then [] :: rest
    else
      match rest with
      | r :: rs => (x :: r) :: rs
      | [] => [[x]]

/-- Digit-string parsing (structural, so that concrete dates reduce). -/
def digitsToNatAux : List Char → Nat → Option Nat
  | [], acc => some acc
  | c :: cs, acc =>
    if c.isDigit then digitsToNatAux cs (acc * 10 + (c.toNat - 48))
    else Option.none

/-- Parse a nonempty all-digit character list. -/
def digitsToNat? : List Char → Option Nat
  | [] => Option.none
  | c :: cs => digitsToNatAux (c :: cs) 0

/-- Python `datetime.strptime(s, ...)` for the year-month-day format:
`none` embeds the `ValueError` branch (malformed or out-of-range date). -/
def parseIsoDate (s : String) : Option Nat :=
  match splitOnChar (Char.ofNat 45) s.toList with
  | [ys, ms, ds] =>
    match digitsToNat? ys, digitsToNat? ms, digitsToNat? ds with
    | some y, some m, some d =>
      if 1 ≤ y && y ≤ 9999 && 1 ≤ m && m ≤ 12 && 1 ≤ d && d ≤ daysInMonth y m
      then some (toOrdinal y m d) else Option.none
    | _, _, _ => Option.none
  | _ => Option.none

/-- Faithful to `wismo_helpers.is_promise_deadline_passed`: empty deadline
and parse failures are `False`; otherwise the check date must be strictly
past the deadline date. `today` is the date of `datetime.utcnow()`. -/
def isPromiseDeadlinePassed (deadlineDate : String) (today : Nat) : Bool :=
  if deadlineDate == "" then false
  else match parseIsoDate deadlineDate with
    | some d => today > d
    | Option.none => false

/-! ## Condition evaluator (`WorkflowEngine._evaluate_condition`,
`src/app/workflow_engine.py`)

Conditions are JSON objects: a falsy (empty) dict, an `all`/`any` compound,
or a leaf `{field, operator, value}` where any key may be missing
(`dict.get` returns `None`).  A missing `value` key is indistinguishable
from `"value": null`, so the leaf carries a plain `PyVal`. -/

/-- Structured predicate tree of the workflow JSON documents. -/
inductive Cond where
  | empty
  | allOf (cs : List Cond)
  | anyOf (cs : List Cond)
  | leaf (field : Option String) (op : Option String) (value : PyVal)
deriving Repr

/-- Python truthiness of `dict.get("field")` / `dict.get("operator")`. -/
def optStrTruthy : Option String → Bool
  | Option.none => false
  | some s => s != ""

/-- Python `actual in container` (`TypeError` for non-iterable containers
or a non-string needle against a string, embedded as `.error ()`). -/
def pyMem (actual container : PyVal) : Except Unit Bool :=
  match container with
  | .list xs => .ok (xs.any (fun x => pyEq actual x))
  | .str s =>
    match actual with
    | .str a => .ok (strContains s a)
    | _ => .error ()
  | _ => .error ()

/-- Leaf evaluation, following the operator chain of
`_evaluate_condition` line by line; an unknown operator falls through to
`False`. -/
def evalLeaf (field op : Option String) (value : PyVal) (ctx : Ctx) :
    Except Unit Bool :=
  if !optStrTruthy field || !optStrTruthy op then .ok true
  else
    let actual := ctxGet ctx (field.getD "")
    let opStr := op.getD ""
    if opStr == "is_null" then
      .ok (actual matches .none || pyEq actual (.str ""))
    else if opStr == "is_not_null" || opStr == "not_null" then
      .ok (!(actual matches .none) && !pyEq actual (.str ""))
    else if opStr == "equals" then .ok (pyEq actual value)
    else if opStr == "not_equals" then .ok (!pyEq actual value)
    else if opStr == "in" then
      if value.truthy then pyMem actual value else .ok false
    else if opStr == "not_in" then
      if value.truthy then (pyMem actual value).map (!·) else .ok true
    else if opStr == "contains" then
      if actual.truthy then
        match value with
        | .str v => .ok (strContains (pyStr actual) v)
        | _ => .error ()
      else .ok false
    else .ok false

mutual

/-- Embeds `WorkflowEngine._evaluate_condition`: `.error ()` marks a
Python exception escaping the (unguarded) evaluator. -/
def evalCond : Cond → Ctx → Except Unit Bool
  | .empty, _ => .ok true
  | .allOf cs, ctx => evalCondAll cs ctx
  | .anyOf cs, ctx => evalCondAny cs ctx
  | .leaf f op v, ctx => evalLeaf f op v ctx

/-- Python `all(...)` over a generator: short-circuits at the first
`False`, propagates the first exception. -/
def evalCondAll : List Cond → Ctx → Except Unit Bool
  | [], _ => .ok true
  | c :: cs, ctx =>
    match evalCond c ctx with
    | .error e => .error e
    | .ok true => evalCondAll cs ctx
    | .ok false => .ok false

/-- Python `any(...)` over a generator: short-circuits at the first
`True`, propagates the first exception. -/
def evalCondAny : List Cond → Ctx → Except Unit Bool
  | [], _ => .ok false
  | c :: cs, ctx =>
    match evalCond c ctx with
    | .error e => .error e
    | .ok false => evalCondAny cs ctx
    | .ok true => .ok true

end

/-! ## Session data model (`src/app/models.py`)

`confidence` is a pass-through float never branched on by the embedded
code paths, so it is carried as an integer token.  Timestamps carry only
their date ordinal, the single thing the code reads from them. -/

/-- Session lifecycle states (`SessionStatus`). -/
inductive SessionStatus where
  | active
  | escalated
  | resolved
deriving Repr, DecidableEq

/-- Customer record (`CustomerInfo`). -/
structure CustomerInfo where
  customerEmail : String
  firstName : String
  lastName : String
  shopifyCustomerId : String
deriving Repr, DecidableEq

/-- Conversation message (`Message`); `role` is the enum value string. -/
structure MessageM where
  role : String
  content : String
  timestamp : Nat
deriving Repr, DecidableEq

/-- Trace event (`TraceEvent`); besides the event type and agent, the
only payload datum the code ever reads back is `policy_applied` of
`workflow_decision` events (`EscalationAgent._get_attempted_actions`),
so that is the only one carried. -/
structure TraceEvent where
  eventType : String
  agent : Option String := Option.none
  policyApplied : List String := []
deriving Repr, DecidableEq

/-- Tool invocation record (`ToolCall`). -/
structure ToolCall where
  toolName : String
  success : Bool
  retryCount : Nat
deriving Repr, DecidableEq

/-- Case context (`CaseContext`), extended with the duck-typed fields
that `WorkflowEngine._build_context` reads through `getattr` with a
default (`order_status`, the WISMO promise fields, the wrong/missing and
refund workflow fields): richer session variants and the tests set them,
and absent attributes behave exactly like their `getattr` default. -/
structure CaseContext where
  orderId : Option String := Option.none
  trackingNumber : Option String := Option.none
  itemName : Option String := Option.none
  refundReason : Option String := Option.none
  orderDate : Option String := Option.none
  shippingStatus : Option String := Option.none
  evidence : List (String × Bool) :=
    [("item_photo", false), ("packing_slip", false), ("shipping_label", false)]
  promiseGiven : Bool := false
  promiseDate : Option String := Option.none
  contactDay : Option String := Option.none
  extra : List (String × PyVal) := []
  orderStatus : Option String := Option.none
  trackingUrl : Option String := Option.none
  itemPhoto : Option String := Option.none
  packingSlip : Option String := Option.none
  wismoPromiseType : Option String := Option.none
  wismoPromiseDeadline : Option String := Option.none
  wismoPromiseSetAt : Option String := Option.none
  wrongMissingType : Option String := Option.none
  photosRequested : Bool := false
  photosReceived : Bool := false
  reshipOffered : Bool := false
  storeCreditOffered : Bool := false
  customerResolutionPreference : Option String := Option.none
  expectationCause : Option String := Option.none
  usageTipSent : Bool := false
  swapOffered : Bool := false
  refundStoreCreditOffered : Bool := false
  refundShippingPromiseType : Option String := Option.none
  refundShippingPromiseDeadline : Option String := Option.none
  refundShippingWaitAsked : Bool := false
  customerWaitAcceptance : Option String := Option.none
  replacementOffered : Bool := false
  customerResolutionChoice : Option String := Option.none
deriving Repr

/-- Full session state (`Session`); `intent` holds the `Intent` enum
value string, `none` when unclassified. -/
structure Session where
  id : String
  customerInfo : CustomerInfo
  status : SessionStatus := .active
  intent : Option String := Option.none
  confidence : Int := 0
  messages : List MessageM := []
  caseContext : CaseContext := {}
  toolHistory : List ToolCall := []
  trace : List TraceEvent := []
  createdAt : Nat
deriving Repr

/-- Valid `Intent` enum values; `Intent(value)` raises for anything
else. -/
def validIntents : List String :=
  ["WISMO", "WRONG_MISSING", "REFUND_STANDARD", "UNKNOWN"]

/-! ## Workflow documents and decisions (`src/app/workflow_engine.py`) -/

/-- One `tool_plan` entry of a `call_tool` rule: maps parameter names to
their `params_source` values. -/
structure ToolPlanSrc where
  toolName : Option String := Option.none
  paramsSource : List (String × PyVal) := []
deriving Repr

/-- One rule of a workflow document; `Option` marks keys that
`rule.get(...)` may find absent. -/
structure Rule where
  id : Option String := Option.none
  condition : Cond := .empty
  action : Option String := Option.none
  policyApplied : Option String := Option.none
  priority : Option String := Option.none
  setContext : List (String × PyVal) := []
  addTags : List String := []
  clarifyingQuestions : List String := []
  toolPlan : List ToolPlanSrc := []
  responseTemplate : Option String := Option.none
  escalationReason : Option String := Option.none
deriving Repr

/-- A loaded workflow JSON document. -/
structure Workflow where
  workflowName : Option String := Option.none
  requiredFields : List String := []
  rules : List Rule := []
deriving Repr

/-- Resolved tool-plan entry inside a decision. -/
structure ToolPlanItem where
  toolName : Option String
  params : List (String × PyVal)
deriving Repr

/-- Decision dict produced by `WorkflowEngine.evaluate`; fields absent
from a given dict shape are `none`/`[]`/`false`, matching `dict.get`.
`overrideApplied`/`overrideId` exist only in the override-aware engine
the spec describes (see `applyOverride`). -/
structure Decision where
  workflowId : String
  ruleId : Option String := Option.none
  nextAction : String
  policyApplied : List String := []
  requiredFieldsMissing : List String := []
  toolPlan : List ToolPlanItem := []
  responseTemplate : Option String := Option.none
  clarifyingQuestions : List String := []
  escalationReason : Option String := Option.none
  escalationPriority : Option String := Option.none
  setContext : List (String × PyVal) := []
  addTags : List String := []
  targetWorkflow : Option String := Option.none
  overrideApplied : Bool := false
  overrideId : Option String := Option.none
deriving Repr

/-- Python `value or default` view of an optional string. -/
def optVal : Option String → PyVal
  | Option.none => .none
  | some s => .str s

/-- Embeds `wismo_helpers.get_contact_day`: cached value, else the first
customer message timestamp, else session creation time. -/
def getContactDay (s : Session) : String :=
  match s.caseContext.contactDay with
  | some d => if d != "" then d else fallbackDay s
  | Option.none => fallbackDay s
where
  /-- Weekday name of the first customer message, else of `created_at`. -/
  fallbackDay (s : Session) : String :=
    match s.messages.find? (fun m => m.role == "customer") with
    | some m => dayName (weekdayOf m.timestamp)
    | Option.none => dayName (weekdayOf s.createdAt)

/-- Embeds `WorkflowEngine._build_context` (`src/app/workflow_engine.py`
lines 92-166): flattens the case context, autocomputes `contact_day` and
recomputes `wismo_promise_deadline_passed` from `today`, the date of
`datetime.utcnow()`.  `refund_reason` is assigned twice in the source
with the same value, hence appears once.  -/
def buildContext (s : Session) (today : Nat) : Ctx :=
  let cc := s.caseContext
  [ ("order_id", optVal cc.orderId),
    ("order_status", optVal cc.orderStatus),
    ("tracking_number", optVal cc.trackingNumber),
    ("tracking_url", optVal cc.trackingUrl),
    ("item_name", optVal cc.itemName),
    ("order_date", optVal cc.orderDate),
    ("shipping_status", optVal cc.shippingStatus),
    ("refund_reason", optVal cc.refundReason),
    ("promise_given", .bool cc.promiseGiven),
    ("item_photo", optVal cc.itemPhoto),
    ("packing_slip", optVal cc.packingSlip),
    ("orders_fetched", ctxGet cc.extra "orders_fetched"),
    ("tracking_requested", ctxGet cc.extra "tracking_requested"),
    ("wismo_promise_type", optVal cc.wismoPromiseType),
    ("wismo_promise_deadline", optVal cc.wismoPromiseDeadline),
    ("wismo_promise_set_at", optVal cc.wismoPromiseSetAt),
    ("wrong_missing_type", optVal cc.wrongMissingType),
    ("photos_requested", .bool cc.photosRequested),
    ("photos_received", .bool cc.photosReceived),
    ("reship_offered", .bool cc.reshipOffered),
    ("store_credit_offered", .bool cc.storeCreditOffered),
    ("customer_resolution_preference", optVal cc.customerResolutionPreference),
    ("expectation_cause", optVal cc.expectationCause),
    ("usage_tip_sent", .bool cc.usageTipSent),
    ("swap_offered", .bool cc.swapOffered),
    ("refund_store_credit_offered", .bool cc.refundStoreCreditOffered),
    ("refund_shipping_promise_type", optVal cc.refundShippingPromiseType),
    ("refund_shipping_promise_deadline", optVal cc.refundShippingPromiseDeadline),
    ("refund_shipping_wait_asked", .bool cc.refundShippingWaitAsked),
    ("customer_wait_acceptance", optVal cc.customerWaitAcceptance),
    ("replacement_offered", .bool cc.replacementOffered),
    ("customer_resolution_choice", optVal cc.customerResolutionChoice),
    ("contact_day",
      .str (match cc.contactDay with
            | some d => if d != "" then d else getContactDay s
            | Option.none => getContactDay s)),
    ("wismo_promise_deadline_passed",
      .bool (match cc.wismoPromiseDeadline with
             | some d => if d != "" then isPromiseDeadlinePassed d today else false
             | Option.none => false)),
    ("customer_id", .str s.customerInfo.shopifyCustomerId),
    ("customer_email", .str s.customerInfo.customerEmail) ]

/-- Generic `dict.get` over a string-keyed association list. -/
def lookupStr {α : Type} (l : List (String × α)) (k : String) : Option α :=
  (l.find? (fun p => p.1 == k)).map (fun p => p.2)

/-- Template interpolation of `_build_decision` for `respond` rules:
every non-`None` context value replaces its brace-wrapped key. -/
def interpolate (ctx : Ctx) (template : String) : String :=
  ctx.foldl
    (fun t kv =>
      match kv.2 with
      | .none => t
      | v => t.replace ("\x7b" ++ kv.1 ++ "\x7d") (pyStr v))
    template

/-- Resolution of one `params_source` map for a `call_tool` rule: a
string of the form `context.<field>` pulls the live context value,
anything else is a literal. -/
def resolveParamsSource (ctx : Ctx) (ps : List (String × PyVal)) :
    List (String × PyVal) :=
  ps.map (fun kv =>
    match kv.2 with
    | .str s =>
      if s.startsWith "context." then (kv.1, ctxGet ctx (s.replace "context." ""))
      else (kv.1, .str s)
    | v => (kv.1, v))

/-- Embeds `WorkflowEngine._build_decision` (`src/app/workflow_engine.py`
lines 214-275). -/
def buildDecision (wf : Workflow) (rule : Rule) (ctx : Ctx) : Decision :=
  let action := rule.action.getD "respond"
  let base : Decision :=
    { workflowId := wf.workflowName.getD "UNKNOWN"
      ruleId := some (rule.id.getD "unknown")
      nextAction := action
      policyApplied := [rule.policyApplied.getD (rule.id.getD "unknown")]
      escalationPriority := some (rule.priority.getD "medium")
      setContext := rule.setContext
      addTags := rule.addTags }
  if action == "ask_clarifying" then
    { base with
      clarifyingQuestions := rule.clarifyingQuestions
      requiredFieldsMissing :=
        wf.requiredFields.filter (fun f => !(ctxGet ctx f).truthy) }
  else if action == "call_tool" then
    { base with
      toolPlan := rule.toolPlan.map (fun tp =>
        { toolName := tp.toolName
          params := resolveParamsSource ctx tp.paramsSource }) }
  else if action == "respond" then
    { base with
      responseTemplate :=
        match rule.responseTemplate with
        | some t => if t == "" then some t else some (interpolate ctx t)
        | Option.none => Option.none }
  else if action == "escalate" then
    { base with
      escalationReason := some (rule.escalationReason.getD "Rule triggered escalation")
      responseTemplate :=
        match rule.responseTemplate with
        | some t => if t != "" then some t else Option.none
        | Option.none => Option.none }
  else base

/-- First rule whose condition is satisfied, in declared order; an
evaluation exception escapes the scan. -/
def scanRules : List Rule → Ctx → Except Unit (Option Rule)
  | [], _ => .ok Option.none
  | r :: rs, ctx =>
    match evalCond r.condition ctx with
    | .error e => .error e
    | .ok true => .ok (some r)
    | .ok false => scanRules rs ctx

/-- Fallback decision of `evaluate` for an intent without a loaded
workflow document. -/
def noWorkflowDecision (intent : String) : Decision :=
  { workflowId := intent
    nextAction := "respond"
    policyApplied := ["default_response"]
    responseTemplate :=
      some "Thank you for contacting us. How can I assist you today?" }

/-- Fallback decision of `evaluate` when no rule of the workflow
matched. -/
def noRuleMatchDecision (intent : String) : Decision :=
  { workflowId := intent
    nextAction := "respond"
    policyApplied := ["no_matching_rule"]
    responseTemplate :=
      some ("I" ++ sq ++ "m looking into your request. Is there anything specific I can help with?") }

/-- Embeds `WorkflowEngine.evaluate` of `src/app/workflow_engine.py`
(the engine the orchestrator wires in): unknown intent falls back to a
`respond` decision, as does a workflow in which no rule matched.  `today`
is the date of `datetime.utcnow()`, read by `_build_context`.  `.error`
embeds a Python exception escaping condition evaluation. -/
def evaluate (workflows : List (String × Workflow)) (s : Session)
    (today : Nat) : Except Unit Decision :=
  let intent := s.intent.getD "None"
  match lookupStr workflows intent with
  | Option.none => .ok (noWorkflowDecision intent)
  | some wf =>
    let ctx := buildContext s today
    match scanRules wf.rules ctx with
    | .error e => .error e
    | .ok (some r) => .ok (buildDecision wf r ctx)
    | .ok Option.none => .ok (noRuleMatchDecision intent)

/-! ## The second workflow engine (`src/app/workflow/__init__.py`)

This divergent implementation evaluates rule conditions that are Python
expression strings through a `try`-guarded `eval`; that evaluator cannot
be shallowly embedded, so it is abstracted as a total boolean function
`evalStr` (the `except` clause makes the real one total as well).  The
empty/`"true"` short-circuit around it is concrete code and is kept. -/

/-- Decision shape of `WorkflowDecision.to_dict`. -/
structure DecisionB where
  workflowId : String
  nextAction : String
  policyApplied : List String := []
  requiredFieldsMissing : List String := []
  toolPlan : List String := []
  responseTemplate : Option String := Option.none
  escalationReason : Option String := Option.none
  targetWorkflow : Option String := Option.none
deriving Repr, DecidableEq

/-- Rule of the string-condition engine. -/
structure RuleB where
  condition : String := ""
  action : Option String := Option.none
  policyApplied : Option String := Option.none
  responseTemplate : Option String := Option.none
  toolName : Option String := Option.none
  escalationReason : Option String := Option.none
  targetWorkflow : Option String := Option.none
  requiredFieldsMissing : List String := []
deriving Repr

/-- Workflow document of the string-condition engine. -/
structure WorkflowB where
  workflowName : Option String := Option.none
  requiredFields : List String := []
  rules : List RuleB := []
deriving Repr

/-- Embeds the `_evaluate_condition` wrapper of the second engine: empty
or literal `"true"` conditions always match; everything else goes to the
guarded `eval`, abstracted as `evalStr`. -/
def evalCondB (evalStr : String → Ctx → Bool) (condition : String)
    (ctx : Ctx) : Bool :=
  if condition == "" || condition.toLower == "true" then true
  else evalStr condition ctx

/-- Embeds `WorkflowEngine._check_required_fields` of the second
engine. -/
def checkRequiredFields (wf : WorkflowB) (s : Session) : List String :=
  let cc := s.caseContext
  wf.requiredFields.filterMap (fun f =>
    if f == "order_id" then
      if !(optVal cc.orderId).truthy then some f else Option.none
    else if f == "tracking_number" then Option.none
    else if f == "item_name" then
      if !(optVal cc.itemName).truthy then some f else Option.none
    else if f == "refund_reason" then
      if !(optVal cc.refundReason).truthy then some f else Option.none
    else if f == "item_photo" || f == "packing_slip" || f == "shipping_label" then
      if !((lookupStr cc.evidence f).getD false) then some f else Option.none
    else Option.none)

/-- Embeds `_build_context` of the second engine; `**ctx.extra` keys
override the base keys, so they are listed first for lookup. -/
def buildContextB (s : Session) : Ctx :=
  let cc := s.caseContext
  cc.extra ++
  [ ("order_id", optVal cc.orderId),
    ("tracking_number", optVal cc.trackingNumber),
    ("item_name", optVal cc.itemName),
    ("refund_reason", optVal cc.refundReason),
    ("contact_day", optVal cc.contactDay),
    ("promise_given", .bool cc.promiseGiven),
    ("promise_date", optVal cc.promiseDate),
    ("evidence_missing", .bool (!cc.evidence.all (fun p => p.2))),
    ("evidence_complete", .bool (cc.evidence.all (fun p => p.2))),
    ("intent", .str (s.intent.getD "UNKNOWN")),
    ("confidence", .int s.confidence) ]

/-- Embeds `_build_decision_from_rule` of the second engine. -/
def buildDecisionB (wf : WorkflowB) (r : RuleB) : DecisionB :=
  let action := r.action.getD "respond"
  let base : DecisionB :=
    { workflowId := wf.workflowName.getD "unknown"
      nextAction := action
      policyApplied := [r.policyApplied.getD "matched_rule"] }
  if action == "respond" then
    { base with responseTemplate := some (r.responseTemplate.getD "") }
  else if action == "call_tool" then
    { base with toolPlan :=
        match r.toolName with
        | some n => if n != "" then [n] else []
        | Option.none => [] }
  else if action == "escalate" then
    { base with escalationReason := some (r.escalationReason.getD "Policy requires escalation") }
  else if action == "route_to_workflow" then
    { base with targetWorkflow := r.targetWorkflow }
  else if action == "ask_clarifying" then
    { base with requiredFieldsMissing := r.requiredFieldsMissing }
  else base

/-- Embeds `WorkflowEngine.evaluate` of `src/app/workflow/__init__.py`:
a missing workflow escalates with `no_matching_workflow`, missing
required fields ask for clarification, no matched rule escalates. -/
def evaluateB (evalStr : String → Ctx → Bool)
    (workflows : List (String × WorkflowB)) (s : Session) : DecisionB :=
  let intent := s.intent.getD "UNKNOWN"
  match lookupStr workflows intent with
  | Option.none =>
    { workflowId := "default"
      nextAction := "escalate"
      policyApplied := ["no_matching_workflow"]
      escalationReason := some ("No workflow found for intent: " ++ intent) }
  | some wf =>
    let missing := checkRequiredFields wf s
    if !missing.isEmpty then
      { workflowId := wf.workflowName.getD "unknown"
        nextAction := "ask_clarifying"
        policyApplied := ["required_fields_check"]
        requiredFieldsMissing := missing }
    else
      let ctx := buildContextB s
      match wf.rules.find? (fun r => evalCondB evalStr r.condition ctx) with
      | some r => buildDecisionB wf r
      | Option.none =>
        { workflowId := wf.workflowName.getD "unknown"
          nextAction := "escalate"
          policyApplied := ["no_rule_matched"]
          escalationReason := some "No matching rule in workflow" }

/-! ## Policy override store (`src/app/policy_overrides.py`) -/

/-- A single policy override (`PolicyOverride`). -/
structure PolicyOverride where
  overrideId : String
  workflow : String
  ruleId : String
  overrideAction : String
  contextUpdates : List (String × PyVal) := []
  toolParamOverrides : List (String × PyVal) := []
  escalationReason : Option String := Option.none
  responseTemplateOverride : Option String := Option.none
  active : Bool := true
deriving Repr

/-- The store contents, `self.overrides.values()` in insertion order
(Python dicts preserve it). -/
def OverrideStore := List PolicyOverride

/-- Embeds `PolicyOverrideStore.get_override`
(`src/app/policy_overrides.py` lines 96-107): the first active override
matching the workflow and rule id, else `None`. -/
def getOverride (store : OverrideStore) (workflow ruleId : String) :
    Option PolicyOverride :=
  store.find? (fun o => o.workflow == workflow && o.ruleId == ruleId && o.active)

/-- Embeds `PolicyOverrideStore.toggle_override`: flips the `active`
flag of the override with the given id (ids are unique dict keys). -/
def toggleOverride (store : OverrideStore) (overrideId : String) :
    OverrideStore :=
  store.map (fun o =>
    if o.overrideId == overrideId then { o with active := !o.active } else o)

/-- Python `{**a, **b}`-style merge where `b` wins on key collisions:
`b` entries shadow `a` entries for `ctxGet`. -/
def dictMerge (a b : List (String × PyVal)) : List (String × PyVal) :=
  b ++ a

/-- Modelled from the spec: application of an active policy override to
a matched rule, per section 4.2 step 4.  The override-aware
`WorkflowEngine.evaluate` the spec describes is not among the provided
sources — only the `PolicyOverrideStore` it would call and the test
scripts that expect a `policy_override_applied` flag are — so this
follows the spec text: override `next_action`, merge `context_updates`
into the live context before the decision payload is resolved, merge
`tool_param_overrides` into resolved tool params (override wins on key
collision), substitute `escalation_reason`/`response_template` if
supplied, and set `override_applied=true` with the override id. -/
def applyOverride (o : PolicyOverride) (wf : Workflow) (r : Rule)
    (ctx : Ctx) : Decision :=
  let d := buildDecision wf r (dictMerge ctx o.contextUpdates)
  { d with
    nextAction := o.overrideAction
    toolPlan := d.toolPlan.map (fun tp =>
      { tp with params := dictMerge tp.params o.toolParamOverrides })
    escalationReason :=
      match o.escalationReason with
      | some er => some er
      | Option.none => d.escalationReason
    responseTemplate :=
      match o.responseTemplateOverride with
      | some t => some t
      | Option.none => d.responseTemplate
    overrideApplied := true
    overrideId := some o.overrideId }

/-- Modelled from the spec: the override-aware `evaluate` of section
4.2, built from the source-embedded engine (workflow lookup, context
build, ordered rule scan) with the `get_override` lookup of
`policy_overrides.py` inserted after the rule match. -/
def evaluateWithOverrides (workflows : List (String × Workflow))
    (store : OverrideStore) (s : Session) (today : Nat) :
    Except Unit Decision :=
  let intent := s.intent.getD "None"
  match lookupStr workflows intent with
  | Option.none => .ok (noWorkflowDecision intent)
  | some wf =>
    let ctx := buildContext s today
    match scanRules wf.rules ctx with
    | .error e => .error e
    | .ok Option.none => .ok (noRuleMatchDecision intent)
    | .ok (some r) =>
      match getOverride store (wf.workflowName.getD "UNKNOWN") (r.id.getD "unknown") with
      | Option.none => .ok (buildDecision wf r ctx)
      | some o => .ok (applyOverride o wf r ctx)

/-! ## Tool execution client (`src/app/tools/client.py`)

Schema validation is embedded as the required-field check (the client
falls back to exactly that when `jsonschema` is unavailable); the tool
backend (`_mock_execute` / `_http_execute`) is abstracted as an
attempt-indexed outcome function, each attempt either raising or
returning a raw response dict. -/

/-- Catalog entry: `paramsJsonSchema` is either absent or carries its
`required` name list. -/
structure ToolConfig where
  schemaRequired : Option (List String) := Option.none
deriving Repr

/-- Raw backend response fields read by `_normalize_response`. -/
structure RawResponse where
  success : Bool := false
  data : List (String × PyVal) := []
  error : Option String := Option.none
  shouldEscalate : Bool := false
deriving Repr

/-- One backend attempt either raises an exception or returns a raw
response. -/
inductive BackendOutcome where
  | raises (msg : String)
  | responds (r : RawResponse)

/-- Normalized tool result (`{success, data, error, should_escalate}`). -/
structure ToolResult where
  success : Bool
  data : List (String × PyVal) := []
  error : String := ""
  shouldEscalate : Bool := false
deriving Repr

/-- Embeds `ToolsClient._normalize_response`. -/
def normalizeResponse (r : RawResponse) : ToolResult :=
  { success := r.success
    data := r.data
    error := r.error.getD ""
    shouldEscalate := r.shouldEscalate }

/-- Embeds `ToolsClient.validate_params` (`src/app/tools/client.py`
lines 54-82): unknown tool fails, absent schema allows everything, else
all `required` fields must be present in `params`. -/
def validateParams (catalog : List (String × ToolConfig)) (toolName : String)
    (params : List (String × PyVal)) : Bool × String :=
  match lookupStr catalog toolName with
  | Option.none => (false, "Tool not in catalog: " ++ toolName)
  | some cfg =>
    match cfg.schemaRequired with
    | Option.none => (true, "")
    | some required =>
      let missing := required.filter (fun f => (lookupStr params f).isNone)
      if !missing.isEmpty then
        (false, "Missing required params: " ++ pyStr (.list (missing.map .str)))
      else (true, "")

/-- Retry loop of `ToolsClient.execute`: `attempt` is the current
`retry_count`, `remaining` the attempts still allowed
(`max_retries - retry_count + 1`).  Returns the result and the number of
backend invocations made. -/
def executeLoop (backend : Nat → BackendOutcome) (maxRetries : Nat)
    (lastError : Option String) :
    (attempt remaining : Nat) → ToolResult × Nat
  | _, 0 =>
    ({ success := false
       error := "Tool failed after " ++ toString (maxRetries + 1) ++
         " attempts: " ++ (lastError.getD "None")
       shouldEscalate := true }, 0)
  | attempt, remaining + 1 =>
    match backend attempt with
    | .raises msg =>
      let (res, n) := executeLoop backend maxRetries (some msg) (attempt + 1) remaining
      (res, n + 1)
    | .responds raw =>
      let norm := normalizeResponse raw
      if norm.success then (norm, 1)
      else
        let (res, n) := executeLoop backend maxRetries (some norm.error) (attempt + 1) remaining
        (res, n + 1)

/-- Embeds `ToolsClient.execute` (`src/app/tools/client.py` lines
84-174): failed validation short-circuits with `should_escalate=False`
and zero backend calls; otherwise up to `max_retries + 1` attempts run,
and exhausting them yields `should_escalate=True`.  The second component
counts backend invocations. -/
def toolsExecute (catalog : List (String × ToolConfig))
    (backend : Nat → BackendOutcome) (toolName : String)
    (params : List (String × PyVal)) (maxRetries : Nat := 1)
    (skipValidation : Bool := false) : ToolResult × Nat :=
  if !skipValidation then
    let v := validateParams catalog toolName params
    if !v.1 then
      ({ success := false, error := v.2, shouldEscalate := false }, 0)
    else executeLoop backend maxRetries Option.none 0 (maxRetries + 1)
  else executeLoop backend maxRetries Option.none 0 (maxRetries + 1)

/-! ## Session store (`src/app/store.py`) -/

/-- In-memory session map `SessionStore._sessions`. -/
def SessionMap := List (String × Session)

/-- Embeds `SessionStore.get`. -/
def storeGet (st : SessionMap) (sid : String) : Option Session :=
  lookupStr st sid

/-- Embeds `SessionStore.update` for a session already in the store. -/
def storeSet (st : SessionMap) (sid : String) (s : Session) : SessionMap :=
  st.map (fun p => if p.1 == sid then (p.1, s) else p)

/-- Embeds `SessionStore.add_message`. -/
def storeAddMessage (st : SessionMap) (sid : String) (m : MessageM) :
    SessionMap :=
  match storeGet st sid with
  | some s => storeSet st sid { s with messages := s.messages ++ [m] }
  | Option.none => st

/-- Embeds `SessionStore.add_trace_event` (the sink of every
`TraceLogger.log_*` call). -/
def storeAddTrace (st : SessionMap) (sid : String) (e : TraceEvent) :
    SessionMap :=
  match storeGet st sid with
  | some s => storeSet st sid { s with trace := s.trace ++ [e] }
  | Option.none => st

/-! ## Escalation agent (`src/app/agents/escalation.py`)

`uuid4().hex` and `utcnow().isoformat()` are generation-time tokens and
enter as explicit arguments.  `str.lower` is embedded as `String.toLower`
(ASCII lowering; the urgency keywords themselves are already
lowercase). -/

/-- High-priority trigger keywords of `_calculate_priority`. -/
def urgencyKeywords : List String :=
  ["urgent", "acil", "hemen", "fraud", "dolandırıcılık"]

/-- Embeds `EscalationAgent._calculate_priority`
(`src/app/agents/escalation.py` lines 105-123): an urgency keyword in any
customer message, else two failed tool calls, give `high`; the default is
`medium`. -/
def escCalcPriority (s : Session) : String :=
  if s.messages.any (fun m =>
      m.role == "customer" &&
      urgencyKeywords.any (fun kw => strContains m.content.toLower kw)) then
    "high"
  else if 2 ≤ (s.toolHistory.filter (fun t => !t.success)).length then "high"
  else "medium"

/-- Embeds `EscalationAgent._summarize_conversation`: intent line plus
the last five messages, each truncated to 100 characters. -/
def escSummarize (s : Session) : String :=
  let intentPart :=
    match s.intent with
    | some i => ["Konu: " ++ i]
    | Option.none => []
  let msgPart :=
    (s.messages.drop (s.messages.length - 5)).map (fun m =>
      (if m.role == "customer" then "Müşteri" else "Bot") ++ ": " ++
      (if 100 < m.content.length then m.content.take 100 ++ "..." else m.content))
  String.intercalate "\n" (intentPart ++ msgPart)

/-- Embeds `EscalationAgent._get_attempted_actions`: tool calls with a
check mark, then the `policy_applied` lines of workflow-decision trace
events. -/
def escAttemptedActions (s : Session) : List String :=
  s.toolHistory.map (fun t =>
    t.toolName ++ " [" ++ (if t.success then "✓" else "✗") ++ "]") ++
  s.trace.filterMap (fun e =>
    if e.eventType == "workflow_decision" && !e.policyApplied.isEmpty then
      some ("Policy: " ++ String.intercalate ", " e.policyApplied)
    else Option.none)

/-- Escalation payload (`models.EscalationPayload`); `priority` is a
plain unvalidated string in the source as well. -/
structure EscalationPayloadE where
  escalationId : String
  customerId : String
  reason : String
  conversationSummary : String
  attemptedActions : List String
  priority : String
  createdAt : String
deriving Repr, DecidableEq

/-- Canned customer notice of `EscalationAgent.CUSTOMER_MESSAGE`. -/
def escCustomerMessage : String :=
  "Your request has been escalated to our specialist team. We will get back to you within 24 hours. Thank you for your patience."

/-- Embeds `EscalationAgent.escalate` (`src/app/agents/escalation.py`
lines 27-77): a falsy explicit priority falls back to the calculated
one; the payload is built, the session locked and an escalation trace
event appended.  `freshHex` is `uuid4().hex`, `createdAt` the
`utcnow().isoformat()` string. -/
def escalationAgentEscalate (store : SessionMap) (sid reason : String)
    (priorityArg : Option String) (freshHex createdAt : String) :
    Option EscalationPayloadE × SessionMap :=
  match storeGet store sid with
  | Option.none => (Option.none, store)
  | some s =>
    let priority :=
      match priorityArg with
      | some p => if p != "" then p else escCalcPriority s
      | Option.none => escCalcPriority s
    let payload : EscalationPayloadE :=
      { escalationId := "esc_" ++ freshHex.take 8
        customerId := s.customerInfo.shopifyCustomerId
        reason := reason
        conversationSummary := escSummarize s
        attemptedActions := escAttemptedActions s
        priority := priority
        createdAt := createdAt }
    let store := storeSet store sid { s with status := .escalated }
    let store := storeAddTrace store sid
      { eventType := "escalation", agent := some "escalation" }
    (some payload, store)

/-! ## Orchestrator (`src/app/orchestrator.py`)

The external collaborators are parameters of an environment: the triage
agent (the LLM classifier, out of scope per the spec) as an optional
classification function, the support agent (the LLM responder) as an
optional generation function, and the tool backend as an attempt-indexed
outcome.  A produced `Eff` records each external invocation so that the
escalation-lock claim can state that none happens.  `Option.none` as an
overall result embeds an uncaught Python exception (including
`RecursionError` from unbounded `route_to_workflow` dispatch, which the
`fuel` argument makes finite). -/

/-- External invocations observable in a `process_message` run. -/
inductive Eff where
  | classifierCall
  | workflowEvalCall
  | toolBackendCall (tool : String)
deriving Repr, DecidableEq

/-- Entities returned by the triage classifier. -/
structure TriageEntities where
  orderId : Option String := Option.none
  trackingNumber : Option String := Option.none
  itemName : Option String := Option.none
deriving Repr

/-- Result of `TriageAgent.classify` (intent is the enum value
string). -/
structure TriageResult where
  intent : String
  confidence : Int := 0
  entities : TriageEntities := {}
  needsHuman : Bool := false
deriving Repr

/-- Reply of `SupportAgent.generate_response`. -/
structure SupportReply where
  subject : Option String := Option.none
  body : String
deriving Repr

/-- Environment of one `process_message` run: injected agents, loaded
workflow documents, tool catalog, tool backend, and the generation-time
tokens (`utcnow` date ordinal, `uuid4().hex`, `isoformat` string). -/
structure Env where
  triage : Option (String → TriageResult) := Option.none
  workflows : List (String × Workflow) := []
  catalog : List (String × ToolConfig) := []
  backend : String → List (String × PyVal) → Nat → BackendOutcome :=
    fun _ _ _ => .responds {}
  support : Option (Session → Decision → Option ToolResult → SupportReply) :=
    Option.none
  today : Nat := 0
  freshHex : String := ""
  createdAtStr : String := ""

/-- Outcome dict of one `_handle_*` helper. -/
structure ExecOut where
  reply : String := ""
  escalationPayload : Option EscalationPayloadE := Option.none
deriving Repr

/-- Result dict of `process_message`. -/
structure PMResult where
  reply : String
  status : SessionStatus
  intent : Option String
  traceEventCount : Option Nat := Option.none
  locked : Bool := false
deriving Repr, DecidableEq

/-- Either the session-not-found error dict or a normal result dict. -/
inductive PMOut where
  | errorOut (msg : String)
  | out (r : PMResult)
deriving Repr, DecidableEq

/-- Canned reply of the escalation lock guard
(`src/app/orchestrator.py` lines 76-82). -/
def lockReply : String :=
  "Your request has been escalated to our specialist team. We will get back to you shortly."

/-- Embeds `Orchestrator._run_triage`: the stub path only logs, the
agent path updates intent/confidence (an invalid enum value degrades to
UNKNOWN) and copies truthy entities into the case context. -/
def orchRunTriage (env : Env) (store : SessionMap) (sid text : String) :
    SessionMap × List Eff :=
  match env.triage with
  | Option.none =>
    (storeAddTrace store sid { eventType := "triage_result", agent := some "triage" }, [])
  | some classify =>
    let tr := classify text
    let store1 :=
      match storeGet store sid with
      | Option.none => store
      | some s =>
        let s1 :=
          if tr.intent != "" then
            { s with
              intent := some (if validIntents.contains tr.intent then tr.intent else "UNKNOWN")
              confidence := tr.confidence }
          else s
        let cc := s1.caseContext
        let cc :=
          match tr.entities.orderId with
          | some o => if o != "" then { cc with orderId := some o } else cc
          | Option.none => cc
        let cc :=
          match tr.entities.trackingNumber with
          | some t => if t != "" then { cc with trackingNumber := some t } else cc
          | Option.none => cc
        let cc :=
          match tr.entities.itemName with
          | some n => if n != "" then { cc with itemName := some n } else cc
          | Option.none => cc
        storeSet store sid { s1 with caseContext := cc }
    (storeAddTrace store1 sid { eventType := "triage_result", agent := some "triage" },
     [Eff.classifierCall])

/-- Embeds `Orchestrator._run_workflow` with the engine wired in
(`wire_agents` installs `app.workflow_engine.workflow_engine`); `none`
is an exception escaping `evaluate`. -/
def orchRunWorkflow (env : Env) (store : SessionMap) (sid : String) :
    Option (Decision × SessionMap × List Eff) :=
  match storeGet store sid with
  | Option.none => Option.none
  | some s =>
    match evaluate env.workflows s env.today with
    | .error _ => Option.none
    | .ok d =>
      some (d,
        storeAddTrace store sid
          { eventType := "workflow_decision", agent := some "workflow"
            policyApplied := d.policyApplied },
        [Eff.workflowEvalCall])

/-- Field-to-question map of `_handle_ask_clarifying`. -/
def fieldQuestion (f : String) : String :=
  if f == "order_id" then "Could you please provide your order number?"
  else if f == "item_photo" then "Could you please share a photo of the items you received?"
  else if f == "packing_slip" then "Could you please share a photo of the packing slip?"
  else if f == "shipping_label" then "Could you please share a photo of the shipping label?"
  else if f == "refund_reason" then "Could you please let us know the reason for your refund request?"
  else "Please provide your " ++ f ++ "."

/-- Embeds `Orchestrator._handle_ask_clarifying`. -/
def handleAskClarifying (env : Env) (store : SessionMap) (sid : String)
    (d : Decision) : ExecOut × SessionMap :=
  let questions := d.requiredFieldsMissing.map fieldQuestion
  let reply :=
    if questions.isEmpty then "Could you please provide more details?"
    else String.intercalate " " questions
  let store := storeAddMessage store sid
    { role := "agent", content := reply, timestamp := env.today }
  let store := storeAddTrace store sid
    { eventType := "agent_response", agent := some "support" }
  ({ reply := reply }, store)

/-- Python `getattr(session.case_context, field)` for the attributes of
`models.CaseContext` that a placeholder can name (`hasattr` is false for
anything else; the dict-valued `evidence`/`extra` attributes are never
named by a workflow placeholder). -/
def ccGetAttr (cc : CaseContext) (f : String) : Option PyVal :=
  if f == "order_id" then some (optVal cc.orderId)
  else if f == "tracking_number" then some (optVal cc.trackingNumber)
  else if f == "item_name" then some (optVal cc.itemName)
  else if f == "refund_reason" then some (optVal cc.refundReason)
  else if f == "order_date" then some (optVal cc.orderDate)
  else if f == "shipping_status" then some (optVal cc.shippingStatus)
  else if f == "promise_given" then some (.bool cc.promiseGiven)
  else if f == "promise_date" then some (optVal cc.promiseDate)
  else if f == "contact_day" then some (optVal cc.contactDay)
  else Option.none

/-- Brace-placeholder resolution of `_handle_tool_call` (lines 272-281):
a `"{field}"` string value is replaced by the case-context attribute when
it exists. -/
def resolvePlaceholders (cc : CaseContext) (params : List (String × PyVal)) :
    List (String × PyVal) :=
  params.map (fun kv =>
    match kv.2 with
    | .str s =>
      if s.startsWith "\x7b" && s.endsWith "\x7d" then
        match ccGetAttr cc ((s.drop 1).dropRight 1) with
        | some v => (kv.1, v)
        | Option.none => (kv.1, .str s)
      else (kv.1, .str s)
    | v => (kv.1, v))

/-- Embeds `Orchestrator._calculate_priority`: only the failed-tool
count matters here (unlike the escalation agent's version). -/
def orchCalcPriority (s : Session) : String :=
  if 2 ≤ (s.toolHistory.filter (fun t => !t.success)).length then "high"
  else "medium"

/-- Embeds `Orchestrator._summarize_conversation`: last five messages,
every content truncated to 100 characters with a trailing ellipsis. -/
def orchSummarize (s : Session) : String :=
  String.intercalate "\n"
    ((s.messages.drop (s.messages.length - 5)).map (fun m =>
      (if m.role == "customer" then "Müşteri" else "Bot") ++ ": " ++
      m.content.take 100 ++ "..."))

/-- Canned escalation reply of `Orchestrator._handle_escalation`. -/
def orchEscalationReply : String :=
  "Your request has been escalated to our specialist team. We will get back to you within 24 hours. Thank you for your patience."

/-- Embeds `Orchestrator._handle_escalation` (lines 319-349): build the
payload, lock the session, log, and append the canned reply.  `none` is
the `AttributeError` on a vanished session. -/
def handleEscalation (env : Env) (store : SessionMap) (sid : String)
    (reason : Option String) : Option (ExecOut × SessionMap) :=
  match storeGet store sid with
  | Option.none => Option.none
  | some s =>
    let payload : EscalationPayloadE :=
      { escalationId := "esc_" ++ env.freshHex.take 8
        customerId := s.customerInfo.shopifyCustomerId
        reason := reason.getD "Requires human review"
        conversationSummary := orchSummarize s
        attemptedActions := s.toolHistory.map (fun t => t.toolName)
        priority := orchCalcPriority s
        createdAt := env.createdAtStr }
    let store := storeSet store sid { s with status := .escalated }
    let store := storeAddTrace store sid
      { eventType := "escalation", agent := some "escalation" }
    let store := storeAddMessage store sid
      { role := "agent", content := orchEscalationReply, timestamp := env.today }
    let store := storeAddTrace store sid
      { eventType := "agent_response", agent := some "escalation" }
    some ({ reply := orchEscalationReply, escalationPayload := some payload }, store)

/-- Stub reply construction of `_handle_respond` when no support agent
is wired: tool data renders a status line, else the decision template or
a generic phrase. -/
def respondStubTemplate (d : Decision) (toolResults : Option ToolResult) :
    String :=
  match toolResults with
  | some tr =>
    if tr.success && !tr.data.isEmpty then
      let base := "Your order status is: " ++
        ((lookupStr tr.data "status").map pyStr).getD "N/A" ++ ". "
      let base :=
        if (ctxGet tr.data "estimated_delivery").truthy then
          base ++ "Estimated delivery: " ++ pyStr (ctxGet tr.data "estimated_delivery") ++ ". "
        else base
      if (ctxGet tr.data "tracking_number").truthy then
        base ++ "Tracking: " ++ pyStr (ctxGet tr.data "tracking_number") ++ "."
      else base
    else d.responseTemplate.getD ("We" ++ sq ++ "re happy to assist you.")
  | Option.none => d.responseTemplate.getD ("We" ++ sq ++ "re happy to assist you.")

/-- Embeds `Orchestrator._handle_respond` (lines 351-383): stub path
without a support agent, generation path with one. -/
def handleRespond (env : Env) (store : SessionMap) (sid : String)
    (d : Decision) (toolResults : Option ToolResult) :
    Option (ExecOut × SessionMap) :=
  match env.support with
  | Option.none =>
    let template := respondStubTemplate d toolResults
    let store := storeAddMessage store sid
      { role := "agent", content := template, timestamp := env.today }
    let store := storeAddTrace store sid
      { eventType := "agent_response", agent := some "support" }
    some ({ reply := template }, store)
  | some gen =>
    match storeGet store sid with
    | Option.none => Option.none
    | some s =>
      let r := gen s d toolResults
      let store := storeAddMessage store sid
        { role := "agent", content := r.body, timestamp := env.today }
      let store := storeAddTrace store sid
        { eventType := "agent_response", agent := some "support" }
      some ({ reply := r.body }, store)

/-- State threaded through the `_handle_tool_call` loop. -/
structure ToolLoopState where
  store : SessionMap
  session : Session
  lastResult : Option ToolResult := Option.none
  shouldEscalate : Bool := false
  effs : List Eff := []

/-- Tool-plan loop of `_handle_tool_call` (lines 264-307): resolve
placeholders from the current case context, execute with validation and
retries (each attempt logs a `tool_call` trace event), stop at the first
`should_escalate`, and fold successful `status`/`tracking_number` data
back into the case context. -/
def toolLoop (env : Env) (sid : String) :
    List ToolPlanItem → ToolLoopState → ToolLoopState
  | [], st => st
  | item :: rest, st =>
    match item.toolName with
    | Option.none => toolLoop env sid rest st
    | some toolName =>
      if toolName == "" then toolLoop env sid rest st
      else
        let resolved := resolvePlaceholders st.session.caseContext item.params
        let (result, nCalls) :=
          toolsExecute env.catalog (env.backend toolName resolved) toolName resolved
        let traceCount := max nCalls 1
        let store := (List.range traceCount).foldl
          (fun acc _ => storeAddTrace acc sid
            { eventType := "tool_call", agent := some "action" })
          st.store
        let effs := st.effs ++ (List.range nCalls).map (fun _ => Eff.toolBackendCall toolName)
        let st := { st with store := store, effs := effs, lastResult := some result }
        if result.shouldEscalate then { st with shouldEscalate := true }
        else
          let st :=
            if result.success && !result.data.isEmpty then
              let cc := st.session.caseContext
              let cc :=
                if (ctxGet result.data "status").truthy then
                  { cc with shippingStatus := some (pyStr (ctxGet result.data "status")) }
                else cc
              let cc :=
                if (ctxGet result.data "tracking_number").truthy then
                  { cc with trackingNumber := some (pyStr (ctxGet result.data "tracking_number")) }
                else cc
              let session := { st.session with caseContext := cc }
              { st with session := session, store := storeSet st.store sid session }
            else st
          toolLoop env sid rest st

/-- Embeds `Orchestrator._handle_tool_call` (lines 248-317): empty plans
respond directly; otherwise the loop runs, a `should_escalate` result
escalates with the canned reason, and success renders a reply from the
last tool result without re-running the engine. -/
def handleToolCall (env : Env) (store : SessionMap) (sid : String)
    (d : Decision) : Option (ExecOut × SessionMap × List Eff) :=
  match storeGet store sid with
  | Option.none => Option.none
  | some s =>
    if d.toolPlan.isEmpty then
      (handleRespond env store sid d Option.none).map (fun (o, st) => (o, st, []))
    else
      let st := toolLoop env sid d.toolPlan { store := store, session := s }
      if st.shouldEscalate then
        (handleEscalation env st.store sid (some "Tool execution failed after retry")).map
          (fun (o, st2) => (o, st2, st.effs))
      else
        (handleRespond env st.store sid d st.lastResult).map
          (fun (o, st2) => (o, st2, st.effs))

/-- Embeds `Orchestrator._execute_decision` (lines 200-223).  The `fuel`
argument is the Python call-stack budget: each `route_to_workflow`
dispatch recurses, and `none` at zero fuel embeds the `RecursionError`
of the unbounded source recursion.  An invalid route target would raise
`ValueError` from `Intent(target)`, also `none`. -/
def executeDecision (env : Env) :
    Nat → SessionMap → String → Decision → Option (ExecOut × SessionMap × List Eff)
  | 0, _, _, _ => Option.none
  | fuel + 1, store, sid, d =>
    if d.nextAction == "ask_clarifying" then
      let (o, st) := handleAskClarifying env store sid d
      some (o, st, [])
    else if d.nextAction == "call_tool" then
      handleToolCall env store sid d
    else if d.nextAction == "escalate" then
      (handleEscalation env store sid d.escalationReason).map
        (fun (o, st) => (o, st, []))
    else if d.nextAction == "route_to_workflow" then
      match
        (match d.targetWorkflow with
         | some t =>
           if t != "" then
             if validIntents.contains t then
               match storeGet store sid with
               | some s => some (storeSet store sid { s with intent := some t })
               | Option.none => Option.none
             else Option.none
           else some store
         | Option.none => some store)
      with
      | Option.none => Option.none
      | some store1 =>
        match orchRunWorkflow env store1 sid with
        | Option.none => Option.none
        | some (d2, store2, effsW) =>
          (executeDecision env fuel store2 sid d2).map
            (fun (o, st, effs) => (o, st, effsW ++ effs))
    else
      (handleRespond env store sid d Option.none).map (fun (o, st) => (o, st, []))

/-- Contact-day defaulting step of `process_message` (lines 89-93): set
`contact_day` from today's weekday only when it is still unset. -/
def pmContactDay (env : Env) (store : SessionMap) (sid : String) :
    SessionMap :=
  match storeGet store sid with
  | some s2 =>
    if !(optVal s2.caseContext.contactDay).truthy then
      storeSet store sid
        { s2 with caseContext :=
          { s2.caseContext with
            contactDay := some (dayName (weekdayOf env.today)) } }
    else store
  | Option.none => store

/-- Decision-and-dispatch tail of `process_message` (lines 98-111),
taking the store and effects accumulated by the earlier steps. -/
def pmFinish (env : Env) (fuel : Nat) (sid : String)
    (pre : SessionMap × List Eff) : Option (PMOut × SessionMap × List Eff) :=
  match orchRunWorkflow env pre.1 sid with
  | Option.none => Option.none
  | some (d, store5, effsW) =>
    match executeDecision env fuel store5 sid d with
    | Option.none => Option.none
    | some (o, store6, effsE) =>
      match storeGet store6 sid with
      | Option.none => Option.none
      | some sf =>
        some (.out { reply := o.reply, status := sf.status, intent := sf.intent,
                     traceEventCount := some sf.trace.length, locked := false },
              store6, pre.2 ++ effsW ++ effsE)

/-- Embeds `Orchestrator.process_message` (`src/app/orchestrator.py`
lines 60-111): session lookup, the escalation-lock guard, message and
trace logging, contact-day defaulting, triage, the workflow decision and
its dispatch.  `none` embeds an uncaught exception. -/
def processMessage (env : Env) (fuel : Nat) (store : SessionMap)
    (sid text : String) : Option (PMOut × SessionMap × List Eff) :=
  match storeGet store sid with
  | Option.none => some (.errorOut "Session not found", store, [])
  | some s =>
    if s.status == .escalated then
      some (.out { reply := lockReply, status := .escalated, intent := s.intent,
                   traceEventCount := Option.none, locked := true },
            store, [])
    else
      pmFinish env fuel sid
        (orchRunTriage env
          (pmContactDay env
            (storeAddTrace
              (storeAddMessage store sid
                { role := "customer", content := text, timestamp := env.today })
              sid { eventType := "customer_message", agent := Option.none })
            sid)
          sid text)

/-! ## Auxiliary predicates and concrete fixtures for the claims -/

mutual

/-- Well-typed condition trees: `in`/`not_in` values are lists (or
falsy), `contains` values are strings.  Exactly the trees on which the
raw Python evaluator cannot hit a `TypeError`. -/
def condWT : Cond → Bool
  | .empty => true
  | .allOf cs => condWTList cs
  | .anyOf cs => condWTList cs
  | .leaf _ op v =>
    let o := op.getD ""
    if o == "in" || o == "not_in" then (v matches .list _) || !v.truthy
    else if o == "contains" then v matches .str _
    else true

/-- Well-typedness of every condition in a list. -/
def condWTList : List Cond → Bool
  | [] => true
  | c :: cs => condWT c && condWTList cs

end

/-- Operators the condition evaluator knows. -/
def knownOperators : List String :=
  ["is_null", "is_not_null", "not_null", "equals", "not_equals",
   "in", "not_in", "contains"]

/-- A backend attempt that Python treats as failed: an exception or a
response whose normalized `success` is false. -/
def attemptFails : BackendOutcome → Prop
  | .raises _ => True
  | .responds r => r.success = false

/-- Fixture customer. -/
def sampleCustomer : CustomerInfo :=
  { customerEmail := "jane@example.com"
    firstName := "Jane"
    lastName := "Doe"
    shopifyCustomerId := "cust_1" }

/-- Fixture session: active, classified WISMO, created on Monday
2026-02-02. -/
def sampleSession : Session :=
  { id := "s1"
    customerInfo := sampleCustomer
    intent := some "WISMO"
    createdAt := toOrdinal 2026 2 2 }

/-- Fixture WISMO workflow whose first rule fires once the stored
promise deadline has passed and whose second is a catch-all respond. -/
def wismoDeadlineWorkflow : Workflow :=
  { workflowName := some "WISMO"
    rules :=
      [ { id := some "post_promise_escalate"
          condition := .leaf (some "wismo_promise_deadline_passed")
            (some "equals") (.bool true)
          action := some "escalate"
          escalationReason := some "Promise deadline passed without delivery" },
        { id := some "reassure"
          condition := .empty
          action := some "respond"
          responseTemplate := some "Your order is on its way." } ] }

/-- Fixture workflow table for the determinism claim. -/
def c4Workflows : List (String × Workflow) :=
  [("WISMO", wismoDeadlineWorkflow)]

/-- Fixture session carrying a promise deadline of 2026-02-01. -/
def c4Session : Session :=
  { sampleSession with
    caseContext := { wismoPromiseDeadline := some "2026-02-01" } }

/-- Fixture workflow whose catch-all rule routes to another workflow;
paired with `loopWorkflowB` it forms the mutual-routing scenario. -/
def loopWorkflowA : Workflow :=
  { workflowName := some "WISMO"
    rules :=
      [ { id := some "route_to_wrong_missing"
          condition := .empty
          action := some "route_to_workflow" } ] }

/-- Second fixture workflow routing back to the first. -/
def loopWorkflowB : Workflow :=
  { workflowName := some "WRONG_MISSING"
    rules :=
      [ { id := some "route_to_wismo"
          condition := .empty
          action := some "route_to_workflow" } ] }

/-- Mutual-routing workflow table. -/
def loopWorkflows : List (String × Workflow) :=
  [("WISMO", loopWorkflowA), ("WRONG_MISSING", loopWorkflowB)]

/-- The decision the wired engine emits for the routing rule: the base
decision (its `_build_decision` has no `route_to_workflow` branch, so
the rule's routing target is dropped and `target_workflow` is absent). -/
def routeDecisionA : Decision :=
  { workflowId := "WISMO"
    ruleId := some "route_to_wrong_missing"
    nextAction := "route_to_workflow"
    policyApplied := ["route_to_wrong_missing"]
    escalationPriority := some "medium" }

/-- Environment of the routing-loop run: engine wired with the two
mutually routing workflows, stub triage, stub support. -/
def loopEnv : Env :=
  { workflows := loopWorkflows, today := toOrdinal 2026 2 2 }

/-- Store of the routing-loop run. -/
def loopStore : SessionMap := [("s1", sampleSession)]

/-- Fixture rule for the override claim: address changes are allowed. -/
def addressChangeRule : Rule :=
  { id := some "address_change_allowed"
    condition := .empty
    action := some "respond"
    responseTemplate := some "We have updated your address." }

/-- Fixture workflow for the override claim. -/
def orderModWorkflow : Workflow :=
  { workflowName := some "ORDER_MODIFICATION"
    rules := [addressChangeRule] }

/-- Workflow table for the override claim (the session intent string
must resolve to it, so it is keyed by an `Intent` value). -/
def c2Workflows : List (String × Workflow) :=
  [("WISMO", orderModWorkflow)]

/-- Fixture override forcing the matched rule to escalate. -/
def c2Override : PolicyOverride :=
  { overrideId := "order_modification_address_change"
    workflow := "ORDER_MODIFICATION"
    ruleId := "address_change_allowed"
    overrideAction := "escalate"
    escalationReason := some "Address update requires manual review"
    active := true }

/-- Override store fixture. -/
def c2Store : OverrideStore := [c2Override]

/-- Session-store fixture for the escalation-priority claim. -/
def c9Store : SessionMap := [("s1", sampleSession)]

/-- Catalog fixture: one tool requiring an `order_id` parameter. -/
def sampleCatalog : List (String × ToolConfig) :=
  [("check_order_status", { schemaRequired := some ["order_id"] })]

/-- Backend fixture whose every attempt fails with an error response. -/
def failingBackend : Nat → BackendOutcome :=
  fun _ => .responds { success := false, error := some "upstream 500" }

/-- Backend fixture that raises on the first attempt and succeeds on the
retry. -/
def flakyBackend : Nat → BackendOutcome :=
  fun attempt =>
    if attempt == 0 then .raises "connection reset"
    else .responds { success := true, data := [("status", .str "in_transit")] }

/-- Fixture session already escalated. -/
def escalatedSession : Session := { sampleSession with status := .escalated }

/-- Session-store fixture for the escalation-lock claim. -/
def c1Store : SessionMap := [("s1", escalatedSession)]

/-! ## Theorems -/

/-- Claim C10: for every context map, a leaf condition whose `field` key
or `operator` key is missing or empty evaluates to true in
`WorkflowEngine._evaluate_condition` — such a malformed leaf matches
every context. -/
theorem leaf_missing_field_or_operator_matches (ctx : Ctx)
    (f op : Option String) (v : PyVal)
    (h : optStrTruthy f = false ∨ optStrTruthy op = false) :
    evalCond (.leaf f op v) ctx = .ok true := by
  rcases h with h | h <;> simp [evalCond, evalLeaf, h]

/-- Witness for C10 at a leaf with an empty field, a leaf with a missing
operator, and a nonempty context. -/
theorem leaf_missing_field_or_operator_matches_witness :
    evalCond (.leaf (some "") (some "equals") (.str "x"))
      [("order_id", .str "o1")] = .ok true ∧
    evalCond (.leaf (some "order_id") Option.none (.str "x"))
      [("order_id", .str "o1")] = .ok true :=
  ⟨leaf_missing_field_or_operator_matches _ _ _ _ (Or.inl (by decide)),
   leaf_missing_field_or_operator_matches _ _ _ _ (Or.inr (by decide))⟩

/-- Claim C8: a tool invocation whose params fail schema validation
fails fast: `success=false`, `should_escalate=false`, zero backend
invocations (hence no retry and no tool execution at all). -/
theorem validation_failure_fails_fast (catalog : List (String × ToolConfig))
    (backend : Nat → BackendOutcome) (toolName : String)
    (params : List (String × PyVal))
    (h : (validateParams catalog toolName params).1 = false) :
    toolsExecute catalog backend toolName params =
      ({ success := false, data := [],
         error := (validateParams catalog toolName params).2,
         shouldEscalate := false }, 0) := by
  unfold toolsExecute
  simp [h]

/-- Witness for C8: a call missing the required `order_id` parameter is
rejected without touching the backend. -/
theorem validation_failure_fails_fast_witness :
    toolsExecute sampleCatalog failingBackend "check_order_status" [] =
      ({ success := false, data := [],
         error := (validateParams sampleCatalog "check_order_status" []).2,
         shouldEscalate := false }, 0) :=
  validation_failure_fails_fast _ _ _ _ (by decide)

/-- Claim C7: when a tool execution fails or raises, `ToolsClient.execute`
retries exactly once (two backend invocations in total); if the retry
also fails the normalized result has `success=false` and
`should_escalate=true`; a successful retry returns its normalized
response.  The embedding is a total function, so no exception reaches the
caller. -/
theorem tool_failure_single_retry (catalog : List (String × ToolConfig))
    (backend : Nat → BackendOutcome) (toolName : String)
    (params : List (String × PyVal))
    (hv : (validateParams catalog toolName params).1 = true)
    (h0 : attemptFails (backend 0)) :
    (attemptFails (backend 1) →
      (toolsExecute catalog backend toolName params).1.success = false ∧
      (toolsExecute catalog backend toolName params).1.shouldEscalate = true ∧
      (toolsExecute catalog backend toolName params).2 = 2) ∧
    (∀ r, backend 1 = .responds r → r.success = true →
      toolsExecute catalog backend toolName params = (normalizeResponse r, 2)) := by
  constructor
  · intro h1
    cases hb0 : backend 0 with
    | raises m0 =>
      cases hb1 : backend 1 with
      | raises m1 =>
        simp [toolsExecute, executeLoop, hv, hb0, hb1]
      | responds r1 =>
        have hr1 : r1.success = false := by
          have := h1; rw [hb1] at this; simpa [attemptFails] using this
        simp [toolsExecute, executeLoop, hv, hb0, hb1, normalizeResponse, hr1]
    | responds r0 =>
      have hr0 : r0.success = false := by
        have := h0; rw [hb0] at this; simpa [attemptFails] using this
      cases hb1 : backend 1 with
      | raises m1 =>
        simp [toolsExecute, executeLoop, hv, hb0, hb1, normalizeResponse, hr0]
      | responds r1 =>
        have hr1 : r1.success = false := by
          have := h1; rw [hb1] at this; simpa [attemptFails] using this
        simp [toolsExecute, executeLoop, hv, hb0, hb1, normalizeResponse, hr0, hr1]
  · intro r hb1 hr
    cases hb0 : backend 0 with
    | raises m0 =>
      simp [toolsExecute, executeLoop, hv, hb0, hb1, normalizeResponse, hr]
    | responds r0 =>
      have hr0 : r0.success = false := by
        have := h0; rw [hb0] at this; simpa [attemptFails] using this
      simp [toolsExecute, executeLoop, hv, hb0, hb1, normalizeResponse, hr0, hr]

/-- Witness for C7: the always-failing backend is invoked twice and the
exhausted result escalates; the flaky backend succeeds on its single
retry. -/
theorem tool_failure_single_retry_witness :
    ((toolsExecute sampleCatalog failingBackend "check_order_status"
        [("order_id", .str "o1")]).1.success = false ∧
     (toolsExecute sampleCatalog failingBackend "check_order_status"
        [("order_id", .str "o1")]).1.shouldEscalate = true ∧
     (toolsExecute sampleCatalog failingBackend "check_order_status"
        [("order_id", .str "o1")]).2 = 2) ∧
    toolsExecute sampleCatalog flakyBackend "check_order_status"
        [("order_id", .str "o1")] =
      (normalizeResponse { success := true, data := [("status", .str "in_transit")] }, 2) :=
  ⟨(tool_failure_single_retry sampleCatalog failingBackend "check_order_status"
      [("order_id", .str "o1")] (by decide) (by trivial)).1 (by trivial),
   (tool_failure_single_retry sampleCatalog flakyBackend "check_order_status"
      [("order_id", .str "o1")] (by decide) (by trivial)).2 _ rfl rfl⟩

/-- Leaf evaluation never errors on a well-typed leaf. -/
theorem evalLeaf_wt_isOk (f op : Option String) (v : PyVal) (ctx : Ctx)
    (h : condWT (.leaf f op v) = true) :
    (evalLeaf f op v ctx).isOk = true := by
  unfold condWT at h
  simp only [evalLeaf]
  by_cases hg : (!optStrTruthy f || !optStrTruthy op) = true
  · rw [if_pos hg]; rfl
  · rw [if_neg hg]
    by_cases h1 : ((op.getD "") == "is_null") = true
    · rw [if_pos h1]; rfl
    · rw [if_neg h1]
      by_cases h2 : ((op.getD "") == "is_not_null" || (op.getD "") == "not_null") = true
      · rw [if_pos h2]; rfl
      · rw [if_neg h2]
        by_cases h3 : ((op.getD "") == "equals") = true
        · rw [if_pos h3]; rfl
        · rw [if_neg h3]
          by_cases h4 : ((op.getD "") == "not_equals") = true
          · rw [if_pos h4]; rfl
          · rw [if_neg h4]
            by_cases h5 : ((op.getD "") == "in") = true
            · rw [if_pos h5]
              simp only [h5, Bool.true_or, if_true] at h
              by_cases htr : v.truthy = true
              · rw [if_pos htr]
                simp only [htr, Bool.not_true, Bool.or_false] at h
                cases v <;> simp_all [pyMem, Except.isOk, Except.toBool]
              · rw [if_neg htr]; rfl
            · rw [if_neg h5]
              by_cases h6 : ((op.getD "") == "not_in") = true
              · rw [if_pos h6]
                simp only [h6, Bool.or_true, if_true] at h
                by_cases htr : v.truthy = true
                · rw [if_pos htr]
                  simp only [htr, Bool.not_true, Bool.or_false] at h
                  cases v <;> simp_all [pyMem, Except.map, Except.isOk, Except.toBool]
                · rw [if_neg htr]; rfl
              · rw [if_neg h6]
                by_cases h7 : ((op.getD "") == "contains") = true
                · rw [if_pos h7]
                  have hor : ((op.getD "") == "in" || (op.getD "") == "not_in") = false := by
                    simp only [Bool.or_eq_false_iff]
                    exact ⟨Bool.eq_false_iff.mpr (fun hh => h5 hh),
                          Bool.eq_false_iff.mpr (fun hh => h6 hh)⟩
                  simp only [hor, Bool.false_eq_true, if_false, h7, if_true] at h
                  by_cases hat : (ctxGet ctx (f.getD "")).truthy = true
                  · rw [if_pos hat]
                    cases v <;> simp_all [Except.isOk, Except.toBool]
                  · rw [if_neg hat]; rfl
                · rw [if_neg h7]; rfl

mutual

/-- Well-typed condition trees always evaluate to a boolean: the
evaluation cannot escape with an exception. -/
theorem evalCond_wt_isOk : ∀ (c : Cond) (ctx : Ctx),
    condWT c = true → (evalCond c ctx).isOk = true
  | .empty, _, _ => rfl
  | .allOf cs, ctx, h =>
    evalCondAll_wt_isOk cs ctx (by simpa [condWT] using h)
  | .anyOf cs, ctx, h =>
    evalCondAny_wt_isOk cs ctx (by simpa [condWT] using h)
  | .leaf f op v, ctx, h => evalLeaf_wt_isOk f op v ctx h

/-- List version of `evalCond_wt_isOk` for `all` compounds. -/
theorem evalCondAll_wt_isOk : ∀ (cs : List Cond) (ctx : Ctx),
    condWTList cs = true → (evalCondAll cs ctx).isOk = true
  | [], _, _ => rfl
  | c :: cs, ctx, h => by
    have hsplit : condWT c = true ∧ condWTList cs = true := by
      simpa [condWTList] using h
    have hc := evalCond_wt_isOk c ctx hsplit.1
    unfold evalCondAll
    cases hec : evalCond c ctx with
    | error e => rw [hec] at hc; simp [Except.isOk, Except.toBool] at hc
    | ok b =>
      cases b
      · simp [Except.isOk, Except.toBool]
      · simpa using evalCondAll_wt_isOk cs ctx hsplit.2

/-- List version of `evalCond_wt_isOk` for `any` compounds. -/
theorem evalCondAny_wt_isOk : ∀ (cs : List Cond) (ctx : Ctx),
    condWTList cs = true → (evalCondAny cs ctx).isOk = true
  | [], _, _ => rfl
  | c :: cs, ctx, h => by
    have hsplit : condWT c = true ∧ condWTList cs = true := by
      simpa [condWTList] using h
    have hc := evalCond_wt_isOk c ctx hsplit.1
    unfold evalCondAny
    cases hec : evalCond c ctx with
    | error e => rw [hec] at hc; simp [Except.isOk, Except.toBool] at hc
    | ok b =>
      cases b
      · simpa using evalCondAny_wt_isOk cs ctx hsplit.2
      · simp [Except.isOk, Except.toBool]

end

/-- Claim C6 (amended): an empty condition always matches and an
unknown-operator leaf is fail-closed false, and on well-typed condition
trees (list-typed `in`/`not_in` values, string-typed `contains` values)
evaluation always returns a boolean; but an ill-typed value can raise a
`TypeError` that propagates out of `_evaluate_condition` (see the
counterexample), so exception-freedom does not hold for every condition
tree. -/
theorem condition_eval_fail_closed (c : Cond) (ctx : Ctx) :
    (condWT c = true → (evalCond c ctx).isOk = true) ∧
    evalCond .empty ctx = .ok true ∧
    (∀ f op v, optStrTruthy f = true → optStrTruthy op = true →
      (op.getD "") ∉ knownOperators →
      evalCond (.leaf f op v) ctx = .ok false) := by
  refine ⟨fun h => evalCond_wt_isOk c ctx h, rfl, fun f op v hf hop hk => ?_⟩
  simp only [knownOperators, List.mem_cons, List.not_mem_nil, or_false,
    not_or] at hk
  obtain ⟨h1, h2, h3, h4, h5, h6, h7, h8⟩ := hk
  simp [evalCond, evalLeaf, hf, hop, beq_iff_eq, h1, h2, h3, h4, h5, h6, h7, h8]

/-- Claim C6 counterexample: a leaf whose `contains` value is the
integer 5 against a truthy actual raises a `TypeError` in the source
(`value in str(actual)` with a non-string left operand), embedded as
`.error`: the evaluation does not return a boolean and the exception
propagates. -/
theorem condition_eval_raises_counterexample :
    evalCond (.leaf (some "order_id") (some "contains") (.int 5))
      [("order_id", .str "A123")] = .error () := rfl

/-- Witness for C6 at a compound well-typed tree, and at a concrete
unknown operator. -/
theorem condition_eval_fail_closed_witness :
    (evalCond (.allOf [.leaf (some "shipping_status") (some "in")
        (.list [.str "in_transit", .str "delivered"]),
      .anyOf [.leaf (some "order_id") (some "is_not_null") .none]])
      [("order_id", .str "o1")]).isOk = true ∧
    evalCond .empty [("x", .int 3)] = .ok true ∧
    evalCond (.leaf (some "order_id") (some "matches_regex") (.str "a"))
      [("order_id", .str "o1")] = .ok false :=
  ⟨(condition_eval_fail_closed _ _).1 (by decide),
   (condition_eval_fail_closed .empty _).2.1,
   (condition_eval_fail_closed .empty _).2.2 _ _ _ (by decide) (by decide)
     (by decide)⟩

/-- Claim C3 (amended): in the workflow-package engine
(`src/app/workflow/__init__.py`), a session whose intent has no loaded
workflow document deterministically yields `escalate` with policy
`no_matching_workflow`; the evaluation is a total function, so no
exception is raised.  (The orchestrator-wired engine instead responds
silently — see the counterexample.) -/
theorem no_workflow_escalates_in_package_engine
    (evalStr : String → Ctx → Bool) (workflows : List (String × WorkflowB))
    (s : Session)
    (h : lookupStr workflows (s.intent.getD "UNKNOWN") = Option.none) :
    evaluateB evalStr workflows s =
      { workflowId := "default"
        nextAction := "escalate"
        policyApplied := ["no_matching_workflow"]
        escalationReason :=
          some ("No workflow found for intent: " ++ (s.intent.getD "UNKNOWN")) } := by
  simp [evaluateB, h]

/-- Witness for C3's amended theorem at an empty workflow table. -/
theorem no_workflow_escalates_in_package_engine_witness :
    evaluateB (fun _ _ => false) [] sampleSession =
      { workflowId := "default"
        nextAction := "escalate"
        policyApplied := ["no_matching_workflow"]
        escalationReason :=
          some ("No workflow found for intent: " ++
            (sampleSession.intent.getD "UNKNOWN")) } :=
  no_workflow_escalates_in_package_engine (fun _ _ => false) [] sampleSession rfl

/-- Claim C3 counterexample: the engine the orchestrator actually wires
(`src/app/workflow_engine.py`) returns a silent `respond` decision with
policy `default_response` — not `escalate` with `no_matching_workflow` —
for a session whose intent has no loaded workflow document. -/
theorem no_workflow_respond_counterexample :
    (evaluate [] sampleSession (toOrdinal 2026 2 2)).map Decision.nextAction
      = .ok "respond" ∧
    (evaluate [] sampleSession (toOrdinal 2026 2 2)).map Decision.policyApplied
      = .ok ["default_response"] :=
  ⟨rfl, rfl⟩

/-- Claim C9 counterexample: an explicitly supplied priority argument is
used verbatim without validation, so the constructed payload can carry a
priority outside `{low, medium, high}` — the schema-validity conjunct of
the claim fails. -/
theorem explicit_priority_unvalidated_counterexample :
    ((escalationAgentEscalate c9Store "s1" "Customer dispute"
        (some "critical") "0123456789abcdef" "2026-02-02T00:00:00").1).map
        EscalationPayloadE.priority = some "critical" ∧
    "critical" ∉ (["low", "medium", "high"] : List String) :=
  ⟨rfl, by decide⟩

/-- Claim C9 (amended): escalation priority precedence — a truthy
explicit priority argument wins verbatim (even outside the allowed set);
otherwise `high` if any customer message contains an urgency keyword,
else `high` if at least two tool-history entries failed, else `medium` —
so whenever no explicit priority is supplied the payload priority lies in
`{low, medium, high}`; and the payload always carries all required
fields (`esc_`-prefixed id, customer id, reason, summary, attempted
actions, creation time). -/
theorem escalation_priority_precedence (store : SessionMap)
    (sid reason : String) (parg : Option String) (hex ts : String)
    (s : Session) (h : storeGet store sid = some s) :
    ∃ payload,
      (escalationAgentEscalate store sid reason parg hex ts).1 = some payload ∧
      payload.escalationId = "esc_" ++ hex.take 8 ∧
      payload.customerId = s.customerInfo.shopifyCustomerId ∧
      payload.reason = reason ∧
      payload.conversationSummary = escSummarize s ∧
      payload.attemptedActions = escAttemptedActions s ∧
      payload.createdAt = ts ∧
      (∀ p, parg = some p → p ≠ "" → payload.priority = p) ∧
      ((parg = Option.none ∨ parg = some "") →
        payload.priority = escCalcPriority s ∧
        payload.priority ∈ (["low", "medium", "high"] : List String)) ∧
      ((s.messages.any (fun m => m.role == "customer" &&
          urgencyKeywords.any (fun kw => strContains m.content.toLower kw))) = true →
        escCalcPriority s = "high") ∧
      ((s.messages.any (fun m => m.role == "customer" &&
          urgencyKeywords.any (fun kw => strContains m.content.toLower kw))) = false →
        2 ≤ (s.toolHistory.filter (fun t => !t.success)).length →
        escCalcPriority s = "high") ∧
      ((s.messages.any (fun m => m.role == "customer" &&
          urgencyKeywords.any (fun kw => strContains m.content.toLower kw))) = false →
        (s.toolHistory.filter (fun t => !t.success)).length < 2 →
        escCalcPriority s = "medium") := by
  have hcalc : escCalcPriority s = "high" ∨ escCalcPriority s = "medium" := by
    unfold escCalcPriority
    split
    · exact Or.inl rfl
    · split
      · exact Or.inl rfl
      · exact Or.inr rfl
  unfold escalationAgentEscalate
  rw [h]
  refine ⟨_, rfl, rfl, rfl, rfl, rfl, rfl, rfl, ?_, ?_, ?_, ?_, ?_⟩
  · -- explicit priority wins
    intro p hp hne
    subst hp
    have hb : (p != "") = true := by simpa using hne
    simp [hb]
  · -- no explicit priority: calculated, and in the allowed set
    intro hno
    rcases hno with hno | hno <;> subst hno <;>
      exact ⟨rfl, by rcases hcalc with hc | hc <;> simp [hc]⟩
  · -- urgency keyword forces high
    intro hkw
    unfold escCalcPriority
    rw [if_pos hkw]
  · -- two failures force high
    intro hkw hfail
    unfold escCalcPriority
    rw [if_neg (by simp [hkw]), if_pos hfail]
  · -- default medium
    intro hkw hfail
    unfold escCalcPriority
    rw [if_neg (by simp [hkw]), if_neg (by omega)]

/-- Witness for C9's amended theorem on the fixture session (no
messages, no failures, no explicit priority): medium priority and all
fields present. -/
theorem escalation_priority_precedence_witness :
    ∃ payload,
      (escalationAgentEscalate c9Store "s1" "Needs review" Option.none
        "0123456789abcdef" "2026-02-02T00:00:00").1 = some payload ∧
      payload.escalationId = "esc_" ++ "0123456789abcdef".take 8 ∧
      payload.priority = escCalcPriority sampleSession ∧
      payload.priority ∈ (["low", "medium", "high"] : List String) := by
  obtain ⟨payload, hsome, hid, _, _, _, _, _, _, hnone, _, _, _⟩ :=
    escalation_priority_precedence c9Store "s1" "Needs review" Option.none
      "0123456789abcdef" "2026-02-02T00:00:00" sampleSession rfl
  obtain ⟨hcalcEq, hmem⟩ := hnone (Or.inl rfl)
  exact ⟨payload, hsome, hid, hcalcEq, hmem⟩

/-- The decision built from a matched rule carries the rule's action
(`respond` when the `action` key is absent). -/
theorem buildDecision_nextAction (wf : Workflow) (r : Rule) (ctx : Ctx) :
    (buildDecision wf r ctx).nextAction = r.action.getD "respond" := by
  simp only [buildDecision]
  repeat' split
  all_goals rfl

/-- Claim C2 (spec-modelled): when the rule matched by the evaluation
has an active override in the store, the override-aware evaluate forces
`next_action = override_action` with `override_applied = true` and the
override's id recorded; and against any store without an active override
for that rule — in particular after deactivating the only one — the next
evaluation returns the plain source-engine decision again, whose action
is the original rule's. -/
theorem override_precedence (wfs : List (String × Workflow))
    (ovs : OverrideStore) (s : Session) (today : Nat) (wf : Workflow)
    (r : Rule) (o : PolicyOverride)
    (hwf : lookupStr wfs (s.intent.getD "None") = some wf)
    (hr : scanRules wf.rules (buildContext s today) = .ok (some r))
    (ho : getOverride ovs (wf.workflowName.getD "UNKNOWN") (r.id.getD "unknown") = some o) :
    ((evaluateWithOverrides wfs ovs s today).map Decision.nextAction
        = .ok o.overrideAction ∧
      (evaluateWithOverrides wfs ovs s today).map Decision.overrideApplied
        = .ok true ∧
      (evaluateWithOverrides wfs ovs s today).map Decision.overrideId
        = .ok (some o.overrideId)) ∧
    (∀ ovs2, getOverride ovs2 (wf.workflowName.getD "UNKNOWN") (r.id.getD "unknown")
        = Option.none →
      evaluateWithOverrides wfs ovs2 s today
        = .ok (buildDecision wf r (buildContext s today)) ∧
      (evaluateWithOverrides wfs ovs2 s today).map Decision.nextAction
        = .ok (r.action.getD "respond")) := by
  constructor
  · simp only [evaluateWithOverrides, hwf, hr, ho]
    exact ⟨rfl, rfl, rfl⟩
  · intro ovs2 hnone
    have hbase : evaluateWithOverrides wfs ovs2 s today
        = .ok (buildDecision wf r (buildContext s today)) := by
      simp only [evaluateWithOverrides, hwf, hr, hnone]
    exact ⟨hbase, by rw [hbase, Except.map, buildDecision_nextAction]⟩

/-- Witness for C2: the fixture override on the matched
`address_change_allowed` rule flips the decision to `escalate`;
toggling it off restores the rule's `respond`. -/
theorem override_precedence_witness :
    ((evaluateWithOverrides c2Workflows c2Store sampleSession
        (toOrdinal 2026 2 2)).map Decision.nextAction = .ok "escalate" ∧
      (evaluateWithOverrides c2Workflows c2Store sampleSession
        (toOrdinal 2026 2 2)).map Decision.overrideApplied = .ok true) ∧
    ((evaluateWithOverrides c2Workflows
        (toggleOverride c2Store "order_modification_address_change")
        sampleSession (toOrdinal 2026 2 2)).map Decision.nextAction
      = .ok "respond") := by
  have hmain := override_precedence c2Workflows c2Store sampleSession
    (toOrdinal 2026 2 2) orderModWorkflow addressChangeRule c2Override
    rfl rfl rfl
  have hrevert := hmain.2
    (toggleOverride c2Store "order_modification_address_change") rfl
  exact ⟨⟨hmain.1.1, hmain.1.2.1⟩, hrevert.2⟩

/-- Claim C4 (amended): `evaluate` is a pure function of the workflow
definitions, the session's decision inputs and the current date — two
sessions agreeing on intent, case context, messages, creation time and
customer info receive identical Decisions at the same evaluation date,
whatever their id, status, confidence, tool history or trace.  (The
override store is not consulted by this engine at all; the clock is a
genuine hidden input, see the counterexample.) -/
theorem evaluate_pure_in_decision_inputs (wfs : List (String × Workflow))
    (today : Nat) (s1 s2 : Session)
    (hI : s1.intent = s2.intent) (hC : s1.caseContext = s2.caseContext)
    (hM : s1.messages = s2.messages) (hA : s1.createdAt = s2.createdAt)
    (hU : s1.customerInfo = s2.customerInfo) :
    evaluate wfs s1 today = evaluate wfs s2 today := by
  cases s1
  cases s2
  simp only at hI hC hM hA hU
  subst hI; subst hC; subst hM; subst hA; subst hU
  rfl

/-- Witness for C4's amended theorem: two sessions differing in id,
status, confidence, tool history and trace but agreeing on the decision
inputs map to the same Decision. -/
theorem evaluate_pure_in_decision_inputs_witness :
    evaluate c4Workflows c4Session (toOrdinal 2026 2 2) =
      evaluate c4Workflows
        { c4Session with
          id := "other-id"
          status := .resolved
          confidence := 9
          toolHistory := [{ toolName := "check_order_status", success := false,
                            retryCount := 1 }]
          trace := [{ eventType := "customer_message" }] }
        (toOrdinal 2026 2 2) :=
  evaluate_pure_in_decision_inputs c4Workflows (toOrdinal 2026 2 2) _ _
    rfl rfl rfl rfl rfl

/-- Claim C4 counterexample: `evaluate` reads the clock through
`wismo_promise_deadline_passed`, so identical (workflow definitions,
overrides, session state) can produce different Decisions at different
wall-clock dates — it is not a pure function of the three inputs the
claim lists. -/
theorem evaluate_time_dependent_counterexample :
    (evaluate c4Workflows c4Session (toOrdinal 2026 2 1)).map
      Decision.nextAction = .ok "respond" ∧
    (evaluate c4Workflows c4Session (toOrdinal 2026 2 2)).map
      Decision.nextAction = .ok "escalate" ∧
    evaluate c4Workflows c4Session (toOrdinal 2026 2 1)
      ≠ evaluate c4Workflows c4Session (toOrdinal 2026 2 2) := by
  have h1 : (evaluate c4Workflows c4Session (toOrdinal 2026 2 1)).map
      Decision.nextAction = .ok "respond" := by rfl
  have h2 : (evaluate c4Workflows c4Session (toOrdinal 2026 2 2)).map
      Decision.nextAction = .ok "escalate" := by rfl
  refine ⟨h1, h2, fun heq => ?_⟩
  rw [heq, h2] at h1
  simp at h1

/-- Claim C1: `process_message` on an escalated session is a locked
no-op: it returns the canned lock reply with the session's state, the
store is returned unchanged (so no message, trace entry or tool-history
entry is added and `tool_history` length cannot increase), and no
external call — classifier, workflow engine or tool backend — is made
(the effect list is empty).  Because the store is unchanged, repeated
calls after escalation satisfy the very same equation: they are
idempotent no-ops. -/
theorem escalation_lock (env : Env) (fuel : Nat) (store : SessionMap)
    (sid text : String) (s : Session)
    (h : storeGet store sid = some s) (hs : s.status = .escalated) :
    processMessage env fuel store sid text =
      some (.out { reply := lockReply, status := .escalated, intent := s.intent,
                   traceEventCount := Option.none, locked := true },
            store, []) := by
  unfold processMessage
  rw [h]
  simp [hs]

/-- Witness for C1 on the escalated fixture session. -/
theorem escalation_lock_witness :
    processMessage {} 5 c1Store "s1" "any further message" =
      some (.out { reply := lockReply, status := .escalated,
                   intent := some "WISMO", traceEventCount := Option.none,
                   locked := true },
            c1Store, []) :=
  escalation_lock {} 5 c1Store "s1" "any further message" escalatedSession
    rfl rfl

/-- Association-list `dict.get` unfolds one cons cell. -/
theorem lookupStr_cons {α : Type} (p : String × α) (rest : List (String × α))
    (k : String) :
    lookupStr (p :: rest) k
      = if p.1 == k then some p.2 else lookupStr rest k := by
  unfold lookupStr
  by_cases hp : (p.1 == k) = true
  · rw [List.find?_cons_of_pos rest hp, if_pos hp]
    rfl
  · rw [List.find?_cons_of_neg rest (by simpa using hp), if_neg hp]

/-- Updating a session in the store changes exactly that key's value. -/
theorem storeGet_storeSet (st : SessionMap) (sid : String) (s : Session) :
    storeGet (storeSet st sid s) sid = (storeGet st sid).map (fun _ => s) := by
  induction st with
  | nil => rfl
  | cons p rest ih =>
    show storeGet
      ((if (p.1 == sid) = true then (p.1, s) else p) :: storeSet rest sid s)
      sid = _
    by_cases hp : (p.1 == sid) = true
    · rw [if_pos hp]
      unfold storeGet
      rw [lookupStr_cons, lookupStr_cons,
        if_pos (show (((p.1, s) : String × Session).1 == sid) = true from hp),
        if_pos hp]
      rfl
    · rw [if_neg hp]
      unfold storeGet at ih ⊢
      rw [lookupStr_cons, lookupStr_cons, if_neg hp, if_neg hp]
      exact ih

/-- `add_message` appends to the addressed session only. -/
theorem storeGet_addMessage (st : SessionMap) (sid : String) (m : MessageM) :
    storeGet (storeAddMessage st sid m) sid
      = (storeGet st sid).map (fun s => { s with messages := s.messages ++ [m] }) := by
  unfold storeAddMessage
  cases h : storeGet st sid with
  | none => simp [h]
  | some s => rw [storeGet_storeSet, h]; rfl

/-- `add_trace_event` appends to the addressed session only. -/
theorem storeGet_addTrace (st : SessionMap) (sid : String) (e : TraceEvent) :
    storeGet (storeAddTrace st sid e) sid
      = (storeGet st sid).map (fun s => { s with trace := s.trace ++ [e] }) := by
  unfold storeAddTrace
  cases h : storeGet st sid with
  | none => simp [h]
  | some s => rw [storeGet_storeSet, h]; rfl

/-- On any session classified WISMO, the wired engine emits the
constant routing decision of the loop fixture — whatever the context,
since the catch-all condition matches and a `route_to_workflow` rule
resolves no payload. -/
theorem evaluate_loop (s : Session) (t : Nat) (h : s.intent = some "WISMO") :
    evaluate loopWorkflows s t = .ok routeDecisionA := by
  simp only [evaluate, h, Option.getD_some]
  rfl

/-- Fuel induction at the heart of C5: from any store holding a WISMO
session, dispatching the routing decision re-evaluates the same workflow
and recurses, so every finite call-stack budget is exhausted
(`RecursionError` in the source), and no `routing_loop` escalation ever
happens. -/
theorem routing_loop_aux : ∀ (fuel : Nat) (store : SessionMap) (s : Session),
    storeGet store "s1" = some s → s.intent = some "WISMO" →
    executeDecision loopEnv fuel store "s1" routeDecisionA = Option.none := by
  intro fuel
  induction fuel with
  | zero => intro store s h hI; rfl
  | succ n ih =>
    intro store s h hI
    have hw : orchRunWorkflow loopEnv store "s1" =
        some (routeDecisionA,
          storeAddTrace store "s1"
            { eventType := "workflow_decision", agent := some "workflow"
              policyApplied := ["route_to_wrong_missing"] },
          [Eff.workflowEvalCall]) := by
      unfold orchRunWorkflow
      simp only [h]
      rw [show loopEnv.workflows = loopWorkflows from rfl,
        evaluate_loop s _ hI]
      rfl
    have hrec := ih
      (storeAddTrace store "s1"
        { eventType := "workflow_decision", agent := some "workflow"
          policyApplied := ["route_to_wrong_missing"] })
      { s with trace := s.trace ++
          [{ eventType := "workflow_decision", agent := some "workflow"
             policyApplied := ["route_to_wrong_missing"] }] }
      (by rw [storeGet_addTrace, h]; rfl) hI
    show (match orchRunWorkflow loopEnv store "s1" with
      | Option.none => Option.none
      | some (d2, store2, effsW) =>
        (executeDecision loopEnv n store2 "s1" d2).map
          (fun r => (r.1, r.2.1, effsW ++ r.2.2))) = Option.none
    simp only [hw]
    rw [hrec]
    rfl

/-- Contact-day defaulting preserves the session's intent and status. -/
theorem pmContactDay_preserves (env : Env) (st : SessionMap) (sid : String)
    (s2 : Session) (h : storeGet st sid = some s2) :
    ∃ s3, storeGet (pmContactDay env st sid) sid = some s3 ∧
      s3.intent = s2.intent ∧ s3.status = s2.status := by
  unfold pmContactDay
  simp only [h]
  by_cases hcd : (!(optVal s2.caseContext.contactDay).truthy) = true
  · rw [if_pos hcd]
    refine ⟨{ s2 with caseContext :=
      { s2.caseContext with
        contactDay := some (dayName (weekdayOf env.today)) } }, ?_, rfl, rfl⟩
    rw [storeGet_storeSet, h]
    rfl
  · rw [if_neg hcd]
    exact ⟨s2, h, rfl, rfl⟩

/-- The decision-and-dispatch tail diverges from any store holding a
WISMO session under the loop environment. -/
theorem pmFinish_loop (fuel : Nat) (st4 : SessionMap) (effs : List Eff)
    (s4 : Session) (h4 : storeGet st4 "s1" = some s4)
    (hI4 : s4.intent = some "WISMO") :
    pmFinish loopEnv fuel "s1" (st4, effs) = Option.none := by
  have hw : orchRunWorkflow loopEnv st4 "s1" =
      some (routeDecisionA,
        storeAddTrace st4 "s1"
          { eventType := "workflow_decision", agent := some "workflow"
            policyApplied := ["route_to_wrong_missing"] },
        [Eff.workflowEvalCall]) := by
    unfold orchRunWorkflow
    simp only [h4]
    rw [show loopEnv.workflows = loopWorkflows from rfl,
      evaluate_loop s4 _ hI4]
    rfl
  unfold pmFinish
  simp only [hw]
  rw [routing_loop_aux fuel
      (storeAddTrace st4 "s1"
        { eventType := "workflow_decision", agent := some "workflow"
          policyApplied := ["route_to_wrong_missing"] })
      { s4 with trace := s4.trace ++
          [{ eventType := "workflow_decision", agent := some "workflow"
             policyApplied := ["route_to_wrong_missing"] }] }
      (by rw [storeGet_addTrace, h4]; rfl) hI4]

/-- One `process_message` step on a WISMO session in the loop
environment exhausts any stack budget: the pipeline's pre-steps (message
log, trace log, contact-day default, stub triage) preserve the intent,
and the dispatched routing decision then diverges. -/
theorem processMessage_loop_aux (fuel : Nat) (store : SessionMap)
    (s : Session) (text : String)
    (h : storeGet store "s1" = some s) (hst : s.status = .active)
    (hI : s.intent = some "WISMO") :
    processMessage loopEnv fuel store "s1" text = Option.none := by
  have hguard : ¬((s.status == SessionStatus.escalated) = true) := by
    rw [hst]; exact Bool.false_ne_true
  have h2 : storeGet
      (storeAddTrace
        (storeAddMessage store "s1"
          { role := "customer", content := text, timestamp := loopEnv.today })
        "s1" { eventType := "customer_message", agent := Option.none })
      "s1" = some
      { s with
        messages := s.messages ++
          [{ role := "customer", content := text, timestamp := loopEnv.today }]
        trace := s.trace ++
          [{ eventType := "customer_message", agent := Option.none }] } := by
    rw [storeGet_addTrace, storeGet_addMessage, h]
    rfl
  obtain ⟨s3, h3, h3I, _⟩ := pmContactDay_preserves loopEnv _ "s1" _ h2
  unfold processMessage
  simp only [h]
  rw [if_neg hguard]
  have htr : ∀ st : SessionMap,
      orchRunTriage loopEnv st "s1" text =
        (storeAddTrace st "s1" { eventType := "triage_result", agent := some "triage" },
         []) := fun _ => rfl
  rw [htr]
  exact pmFinish_loop fuel _ [] { s3 with trace := s3.trace ++
      [{ eventType := "triage_result", agent := some "triage" }] }
    (by rw [storeGet_addTrace, h3]; rfl) (h3I.trans hI)

/-- Claim C5 (code bug): for every stack budget, `process_message` on
the mutually routing workflow pair never terminates normally — the
unbounded `route_to_workflow` recursion of `_execute_decision` exhausts
any finite budget (a `RecursionError` in Python) and no
`escalate("routing_loop")` decision is ever produced, contrary to the
hop-counter bound the claim describes. -/
theorem routing_loop_diverges (fuel : Nat) :
    processMessage loopEnv fuel loopStore "s1" "where is my order"
      = Option.none :=
  processMessage_loop_aux fuel loopStore sampleSession "where is my order"
    rfl rfl rfl

end LookFor
